import Mathlib

/-!
TPS68470 GPIO and regulator drivers

A shallow embedding of `drivers/gpio/gpio-tps68470.c` and
`drivers/regulator/tps68470-regulator.c`.

* Machine integers are natural numbers reduced modulo `2^32` (`unsigned int`)
  or `2^64` (`unsigned long`); `int` results are integers.
* The register map lives outside the two drivers.  It is modelled as explicit
  state: the register contents, a fault oracle that decides for every
  operation (given the operations issued before it) which error code the
  transport returns, and the log of the operations issued so far.
* The constants of `linux/mfd/tps68470.h` are not part of the sources; the
  drivers take them as a parameter (`Tps68470Hdr`).
* `dev_err` only writes to the kernel log and is left out.
-/

/-! ## Header constants -/

/-- The constants and the one function-like macro that the drivers take from
`linux/mfd/tps68470.h`. -/
structure Tps68470Hdr where
  TPS68470_REG_GPDO : Nat
  TPS68470_REG_SGPO : Nat
  TPS68470_REG_VAUX1CTL : Nat
  TPS68470_GPIO_CTL_REG_A : Nat → Nat
  TPS68470_GPIO_MODE_MASK : Nat
  TPS68470_GPIO_MODE_OUT_CMOS : Nat
  TPS68470_VAUX1CTL_EN_MASK : Nat

/-- A concrete choice of the header constants (register addresses and mode
values in the manner of the mainline header for the chip, the rail's enable
mask on bit 0); it only serves to instantiate the general statements. -/
def tps68470_h : Tps68470Hdr where
  TPS68470_REG_GPDO := 0x27
  TPS68470_REG_SGPO := 0x22
  TPS68470_REG_VAUX1CTL := 0x45
  TPS68470_GPIO_CTL_REG_A := fun x => 0x14 + x * 2
  TPS68470_GPIO_MODE_MASK := 3
  TPS68470_GPIO_MODE_OUT_CMOS := 2
  TPS68470_VAUX1CTL_EN_MASK := 1

def TPS68470_N_LOGIC_OUTPUT : Nat := 3
def TPS68470_N_REGULAR_GPIO : Nat := 7
def TPS68470_N_GPIO : Nat := TPS68470_N_LOGIC_OUTPUT + TPS68470_N_REGULAR_GPIO
def GPIO_LINE_DIRECTION_IN : Int := 1
def GPIO_LINE_DIRECTION_OUT : Int := 0

/-- Modelled from the spec: the host's invalid-argument error code, with the
value of `EINVAL` in the errno header, which is not part of the sources. -/
def EINVAL : Int := 22

/-- Modelled from the spec: the host's not-found error code, with the value of
`ENOENT` in the errno header, which is not part of the sources. -/
def ENOENT : Int := 2

/-- Modelled from the spec: the host's out-of-memory error code, with the
value of `ENOMEM` in the errno header, which is not part of the sources. -/
def ENOMEM : Int := 12

/-! ## Machine integers -/

/-- The macro `BIT(nr)`, that is `1UL << nr` in a 64-bit `unsigned long`. -/
def BIT (nr : Nat) : Nat := (1 <<< nr) % 2 ^ 64

/-- The value of an `int` object that holds the 32-bit pattern `x`. -/
def int32 (x : Nat) : Int :=
  if x % 2 ^ 32 < 2 ^ 31 then ((x % 2 ^ 32 : Nat) : Int) else ((x % 2 ^ 32 : Nat) : Int) - 2 ^ 32

/-- Conversion of an `int` holding the 32-bit pattern `x` to `unsigned long`
(sign extension to 64 bits). -/
def sext64 (x : Nat) : Nat :=
  if x % 2 ^ 32 < 2 ^ 31 then x % 2 ^ 32 else 2 ^ 32 * (2 ^ 32 - 1) + x % 2 ^ 32

/-- The 32-bit value `(old & ~mask) | (val & mask)`. -/
def update32 (old mask val : Nat) : Nat :=
  ((old % 2 ^ 32) &&& ((2 ^ 32 - 1) ^^^ (mask % 2 ^ 32))) ||| ((val % 2 ^ 32) &&& (mask % 2 ^ 32))

/-! ## Register map -/

/-- One operation issued to the register map. -/
inductive RegOp where
  | read (reg : Nat)
  | update_bits (reg mask val : Nat)
  deriving DecidableEq, Repr

/-- Modelled from the spec: the register-map collaborator, which is injected
into the drivers and not part of the sources.  `regs` are the register
contents; `fault done op` is the error code (0 for success) the transport
returns for `op` once the operations `done` have been issued; `log` records
the operations issued so far. -/
structure Regmap where
  regs : Nat → Nat
  fault : List RegOp → RegOp → Int
  log : List RegOp

/-- A register map whose operations never fail. -/
def Regmap.Faithful (map : Regmap) : Prop :=
  ∀ done op, map.fault done op = 0

/-- A register map whose failure behaviour is part of its state: the transport
answers an operation the same way whatever was issued before it.  A register
map that never fails and one whose operations always fail are of this kind. -/
def Regmap.HistoryIndependent (map : Regmap) : Prop :=
  ∀ done1 done2 op, map.fault done1 op = map.fault done2 op

/-- An in-memory register map with the given contents, no faults and an empty
log. -/
def memRegmap (regs : Nat → Nat) : Regmap :=
  Regmap.mk regs (fun _ _ => 0) []

/-- Modelled from the spec: `read(reg) -> (value, error)` of the register-map
collaborator.  Returns the error code, the value stored in `*val` (0 stands
for an object left unwritten on failure) and the register map afterwards. -/
def regmap_read (map : Regmap) (reg : Nat) : Int × Nat × Regmap :=
  let ret := map.fault map.log (RegOp.read reg)
  let map1 := Regmap.mk map.regs map.fault (map.log ++ [RegOp.read reg])
  if ret ≠ 0 then (ret, 0, map1) else (0, map.regs reg % 2 ^ 32, map1)

/-- Modelled from the spec: `update_bits(reg, mask, value) -> error` of the
register-map collaborator; `mask` and `val` are `unsigned int` parameters.  On
success the register holds `(old & ~mask) | (val & mask)`; on failure the
contents are left as they were. -/
def regmap_update_bits (map : Regmap) (reg mask val : Nat) : Int × Regmap :=
  let op := RegOp.update_bits reg (mask % 2 ^ 32) (val % 2 ^ 32)
  let ret := map.fault map.log op
  if ret ≠ 0 then (ret, Regmap.mk map.regs map.fault (map.log ++ [op]))
  else (0, Regmap.mk
      (fun r => if r = reg then update32 (map.regs reg) mask val else map.regs r)
      map.fault (map.log ++ [op]))

/-! ## GPIO driver -/

/-- The function `tps68470_gpio_get`: the `int` result and the register map afterwards. -/
def tps68470_gpio_get (hdr : Tps68470Hdr) (regmap : Regmap) (offset : Nat) : Int × Regmap :=
  let reg := if offset ≥ TPS68470_N_REGULAR_GPIO then hdr.TPS68470_REG_SGPO
    else hdr.TPS68470_REG_GPDO
  let offset := if offset ≥ TPS68470_N_REGULAR_GPIO then offset - TPS68470_N_REGULAR_GPIO
    else offset
  let r := regmap_read regmap reg
  if r.1 ≠ 0 then (r.1, r.2.2)
  else (if sext64 r.2.1 &&& BIT offset ≠ 0 then 1 else 0, r.2.2)

/-- The function `tps68470_gpio_get_direction`: `val` is an `int`, masked with the mode
mask and compared as an `int` with the output-CMOS mode value. -/
def tps68470_gpio_get_direction (hdr : Tps68470Hdr) (regmap : Regmap) (offset : Nat) :
    Int × Regmap :=
  if offset ≥ TPS68470_N_REGULAR_GPIO then (GPIO_LINE_DIRECTION_OUT, regmap)
  else
    let r := regmap_read regmap (hdr.TPS68470_GPIO_CTL_REG_A offset)
    if r.1 ≠ 0 then (r.1, r.2.2)
    else
      let val := r.2.1 &&& (hdr.TPS68470_GPIO_MODE_MASK % 2 ^ 32)
      (if int32 val ≥ (hdr.TPS68470_GPIO_MODE_OUT_CMOS : Int) then GPIO_LINE_DIRECTION_OUT
        else GPIO_LINE_DIRECTION_IN, r.2.2)

/-- The function `tps68470_gpio_set`: a `void` function; the result of the update is
dropped. -/
def tps68470_gpio_set (hdr : Tps68470Hdr) (regmap : Regmap) (offset : Nat) (value : Int) :
    Regmap :=
  let reg := if offset ≥ TPS68470_N_REGULAR_GPIO then hdr.TPS68470_REG_SGPO
    else hdr.TPS68470_REG_GPDO
  let offset := if offset ≥ TPS68470_N_REGULAR_GPIO then offset - TPS68470_N_REGULAR_GPIO
    else offset
  (regmap_update_bits regmap reg (BIT offset) (if value ≠ 0 then BIT offset else 0)).2

/-- The function `tps68470_gpio_output`. -/
def tps68470_gpio_output (hdr : Tps68470Hdr) (regmap : Regmap) (offset : Nat) (value : Int) :
    Int × Regmap :=
  if offset ≥ TPS68470_N_REGULAR_GPIO then (0, regmap)
  else
    let regmap1 := tps68470_gpio_set hdr regmap offset value
    regmap_update_bits regmap1 (hdr.TPS68470_GPIO_CTL_REG_A offset)
      hdr.TPS68470_GPIO_MODE_MASK hdr.TPS68470_GPIO_MODE_OUT_CMOS

/-- The function `tps68470_gpio_input`. -/
def tps68470_gpio_input (hdr : Tps68470Hdr) (regmap : Regmap) (offset : Nat) : Int × Regmap :=
  if offset ≥ TPS68470_N_REGULAR_GPIO then (-EINVAL, regmap)
  else
    regmap_update_bits regmap (hdr.TPS68470_GPIO_CTL_REG_A offset)
      hdr.TPS68470_GPIO_MODE_MASK 0x00

/-! ## Regulator driver -/

/-- The function `tps68470_regulator_enable`. -/
def tps68470_regulator_enable (hdr : Tps68470Hdr) (regmap : Regmap) : Int × Regmap :=
  let r := regmap_update_bits regmap hdr.TPS68470_REG_VAUX1CTL hdr.TPS68470_VAUX1CTL_EN_MASK 1
  if r.1 ≠ 0 then (r.1, r.2) else (0, r.2)

/-- The function `tps68470_regulator_disable`. -/
def tps68470_regulator_disable (hdr : Tps68470Hdr) (regmap : Regmap) : Int × Regmap :=
  let r := regmap_update_bits regmap hdr.TPS68470_REG_VAUX1CTL hdr.TPS68470_VAUX1CTL_EN_MASK 0
  if r.1 ≠ 0 then (r.1, r.2) else (0, r.2)

/-- The function `tps68470_regulator_is_enabled`: `regval` is an `unsigned int`. -/
def tps68470_regulator_is_enabled (hdr : Tps68470Hdr) (regmap : Regmap) : Int × Regmap :=
  let r := regmap_read regmap hdr.TPS68470_REG_VAUX1CTL
  if r.1 ≠ 0 then (r.1, r.2.2)
  else
    let regval := r.2.1 &&& (hdr.TPS68470_VAUX1CTL_EN_MASK % 2 ^ 32)
    if regval ≠ 0 then (1, r.2.2) else (0, r.2.2)

/-- The function `tps68470_regulator_get_voltage`: the register map reachable from `rdev`
is handed back as it came. -/
def tps68470_regulator_get_voltage (regmap : Regmap) : Int × Regmap :=
  (3300000, regmap)

/-- The fields of `struct regulator_desc` the driver sets, apart from the
callback table, the type tag and the owner. -/
structure regulator_desc where
  name : String
  id : Int
  fixed_uV : Int

def tps68470_regulator_desc : regulator_desc :=
  regulator_desc.mk "tps68470-3v3" 0 3300000

/-- One entry of a device-tree match table (`struct of_regulator_match`), by
the name it is initialised with. -/
structure of_regulator_match where
  name : String

def tps68470_matches : List of_regulator_match :=
  [of_regulator_match.mk "fixed"]

/-- A call from `tps68470_regulator_probe` into the host. -/
inductive HostCall where
  | devm_kzalloc
  | of_node_get
  | of_get_child_by_name (name : String)
  | of_regulator_match (names : List String) (num_matches : Nat)
  | of_node_put
  | dev_get_drvdata
  | devm_regulator_register
  | platform_set_drvdata
  deriving DecidableEq, Repr

/-- Modelled from the spec: the host as `tps68470_regulator_probe` meets it,
one field per call whose result the probe function looks at.  Pointers are
their value as a signed `long`; `devm_kzalloc`, `of_node_get` and
`of_get_child_by_name` say whether the pointer returned is non-NULL;
`of_regulator_match` is a negative error code or the number of descriptors
matched. -/
structure ProbeHost where
  devm_kzalloc : Bool
  of_node_get : Bool
  of_get_child_by_name : String → Bool
  of_regulator_match : List String → Nat → Int
  devm_regulator_register : Int

/-- Modelled from the spec: the host's error-pointer convention (`IS_ERR`),
which is not part of the sources: a pointer is an error when its value lies
in the last 4095 addresses. -/
def IS_ERR (ptr : Int) : Bool :=
  decide (-4095 ≤ ptr ∧ ptr < 0)

/-- Modelled from the spec: `PTR_ERR`, the error code carried by an error
pointer. -/
def PTR_ERR (ptr : Int) : Int := ptr

/-- The function `tps68470_regulator_probe`: the `int` result and the host calls made, in
order. -/
def tps68470_regulator_probe (host : ProbeHost) : Int × List HostCall :=
  let calls := [HostCall.devm_kzalloc]
  if !host.devm_kzalloc then (-ENOMEM, calls)
  else
    let calls := calls ++ [HostCall.of_node_get]
    if !host.of_node_get then (-EINVAL, calls)
    else
      let calls := calls ++ [HostCall.of_get_child_by_name "regulators"]
      if !host.of_get_child_by_name "regulators" then (-EINVAL, calls)
      else
        let ret := host.of_regulator_match (tps68470_matches.map fun m => m.name)
          tps68470_matches.length
        let calls := calls ++ [HostCall.of_regulator_match
          (tps68470_matches.map fun m => m.name) tps68470_matches.length, HostCall.of_node_put]
        if ret < 0 then (ret, calls)
        else
          let calls := calls ++ [HostCall.dev_get_drvdata, HostCall.devm_regulator_register]
          if IS_ERR host.devm_regulator_register then
            (PTR_ERR host.devm_regulator_register, calls)
          else (0, calls ++ [HostCall.platform_set_drvdata])

/-- A call of one of the two state-changing regulator callbacks. -/
inductive RegulatorCall where
  | enable
  | disable
  deriving DecidableEq, Repr

/-- The register map after a sequence of `tps68470_regulator_enable` and
`tps68470_regulator_disable` calls, results dropped. -/
def runRegulatorCalls (hdr : Tps68470Hdr) (regmap : Regmap) : List RegulatorCall → Regmap
  | [] => regmap
  | RegulatorCall.enable :: rest =>
      runRegulatorCalls hdr (tps68470_regulator_enable hdr regmap).2 rest
  | RegulatorCall.disable :: rest =>
      runRegulatorCalls hdr (tps68470_regulator_disable hdr regmap).2 rest

/-! ## Bit-level lemmas -/

theorem BIT_eq_two_pow {nr : Nat} (h : nr < 64) : BIT nr = 2 ^ nr := by
  unfold BIT
  rw [Nat.one_shiftLeft]
  exact Nat.mod_eq_of_lt (Nat.pow_lt_pow_right (by decide) h)

theorem and_two_pow_ne_zero_iff (x i : Nat) : x &&& 2 ^ i ≠ 0 ↔ x.testBit i = true := by
  constructor
  · intro h
    by_contra hb
    apply h
    apply Nat.eq_of_testBit_eq
    intro j
    simp only [Nat.testBit_and, Nat.zero_testBit, Nat.testBit_two_pow]
    by_cases hij : i = j
    · subst hij; simp [hb]
    · simp [hij]
  · intro hb h
    have h1 : (x &&& 2 ^ i).testBit i = true := by
      simp [Nat.testBit_and, Nat.testBit_two_pow, hb]
    rw [h] at h1
    simp at h1

theorem testBit_sext64 (x i : Nat) (h : i < 32) : (sext64 x).testBit i = x.testBit i := by
  have hx : (x % 2 ^ 32).testBit i = x.testBit i := by
    rw [Nat.testBit_mod_two_pow]; simp [h]
  unfold sext64
  split
  · exact hx
  · rw [Nat.testBit_mul_pow_two_add _ (Nat.mod_lt _ (by decide)), if_pos h]
    exact hx

theorem testBit_update32 (old mask val i : Nat) (h : i < 32) :
    (update32 old mask val).testBit i
      = if mask.testBit i = true then val.testBit i else old.testBit i := by
  unfold update32
  simp only [Nat.testBit_or, Nat.testBit_and, Nat.testBit_xor, Nat.testBit_mod_two_pow,
    Nat.testBit_two_pow_sub_one]
  by_cases hm : mask.testBit i = true <;> simp [h, hm]

theorem update32_lt (old mask val : Nat) : update32 old mask val < 2 ^ 32 := by
  unfold update32
  apply Nat.or_lt_two_pow
  · exact Nat.lt_of_le_of_lt Nat.and_le_left (Nat.mod_lt _ (by decide))
  · exact Nat.lt_of_le_of_lt Nat.and_le_left (Nat.mod_lt _ (by decide))

/-! ## Register-map lemmas -/

theorem regmap_update_bits_fault (map : Regmap) (reg mask val : Nat) :
    (regmap_update_bits map reg mask val).2.fault = map.fault := by
  unfold regmap_update_bits
  dsimp only
  split <;> rfl

theorem regmap_update_bits_log (map : Regmap) (reg mask val : Nat) :
    (regmap_update_bits map reg mask val).2.log
      = map.log ++ [RegOp.update_bits reg (mask % 2 ^ 32) (val % 2 ^ 32)] := by
  unfold regmap_update_bits
  dsimp only
  split <;> rfl

theorem regmap_update_bits_ret (map : Regmap) (reg mask val : Nat) :
    (regmap_update_bits map reg mask val).1
      = map.fault map.log (RegOp.update_bits reg (mask % 2 ^ 32) (val % 2 ^ 32)) := by
  unfold regmap_update_bits
  dsimp only
  split
  · rfl
  · rename_i h
    simp only [ne_eq, not_not] at h
    exact h.symm

theorem regmap_update_bits_faithful (map : Regmap) (reg mask val : Nat)
    (hf : map.Faithful) : (regmap_update_bits map reg mask val).2.Faithful := by
  intro done op
  rw [regmap_update_bits_fault]
  exact hf done op

theorem regmap_update_bits_regs (map : Regmap) (reg mask val : Nat) (hf : map.Faithful) :
    (regmap_update_bits map reg mask val).2.regs
      = fun r => if r = reg then update32 (map.regs reg) mask val else map.regs r := by
  unfold regmap_update_bits
  simp [hf map.log]

theorem regmap_read_faithful (map : Regmap) (reg : Nat) (hf : map.Faithful) :
    regmap_read map reg
      = (0, map.regs reg % 2 ^ 32, Regmap.mk map.regs map.fault (map.log ++ [RegOp.read reg])) := by
  unfold regmap_read
  simp [hf map.log]

theorem level_bit_update32 (old i : Nat) (value : Int) (h : i < 32) :
    sext64 (update32 old (BIT i) (if value ≠ 0 then BIT i else 0) % 2 ^ 32) &&& BIT i ≠ 0
      ↔ value ≠ 0 := by
  rw [BIT_eq_two_pow (by omega : i < 64), and_two_pow_ne_zero_iff, testBit_sext64 _ _ h,
    Nat.mod_eq_of_lt (update32_lt _ _ _), testBit_update32 _ _ _ _ h]
  by_cases hv : value = 0 <;> simp [hv, Nat.testBit_two_pow]

theorem read_after_level_update (map : Regmap) (reg i : Nat) (value : Int)
    (hf : map.Faithful) (h : i < 32) :
    (regmap_read (regmap_update_bits map reg (BIT i) (if value ≠ 0 then BIT i else 0)).2 reg).1
        = 0
      ∧ (sext64 (regmap_read
            (regmap_update_bits map reg (BIT i) (if value ≠ 0 then BIT i else 0)).2 reg).2.1
          &&& BIT i ≠ 0 ↔ value ≠ 0) := by
  rw [regmap_read_faithful _ _ (regmap_update_bits_faithful _ _ _ _ hf),
    regmap_update_bits_regs _ _ _ _ hf]
  refine ⟨rfl, ?_⟩
  dsimp only
  rw [if_pos rfl]
  exact level_bit_update32 _ _ _ h

theorem tps68470_gpio_set_faithful (hdr : Tps68470Hdr) (regmap : Regmap) (offset : Nat)
    (value : Int) (hf : regmap.Faithful) :
    (tps68470_gpio_set hdr regmap offset value).Faithful :=
  regmap_update_bits_faithful _ _ _ _ hf

/-! ## The level of a pin -/

/-- C1: over a register map that never fails, for every pin offset below 10,
every `int` value and every initial contents, `tps68470_gpio_set` followed
by `tps68470_gpio_get` on the same pin returns 1 when the value is non-zero
(true) and 0 when it is zero (false). -/
theorem tps68470_gpio_set_get_roundtrip (hdr : Tps68470Hdr) (regmap : Regmap) (offset : Nat)
    (value : Int) (hf : regmap.Faithful) (ho : offset < TPS68470_N_GPIO) :
    (tps68470_gpio_get hdr (tps68470_gpio_set hdr regmap offset value) offset).1
      = if value ≠ 0 then 1 else 0 := by
  have hi : (if offset ≥ TPS68470_N_REGULAR_GPIO then offset - TPS68470_N_REGULAR_GPIO
      else offset) < 32 := by
    unfold TPS68470_N_GPIO TPS68470_N_LOGIC_OUTPUT TPS68470_N_REGULAR_GPIO at ho
    split <;> omega
  unfold tps68470_gpio_get tps68470_gpio_set
  dsimp only
  generalize (if offset ≥ TPS68470_N_REGULAR_GPIO then hdr.TPS68470_REG_SGPO
    else hdr.TPS68470_REG_GPDO) = reg
  generalize (if offset ≥ TPS68470_N_REGULAR_GPIO then offset - TPS68470_N_REGULAR_GPIO
    else offset) = i at hi
  obtain ⟨h1, h2⟩ := read_after_level_update regmap reg i value hf hi
  rw [if_neg (not_not.mpr h1)]
  exact if_congr h2 rfl rfl

theorem tps68470_gpio_set_get_roundtrip_witness :
    (tps68470_gpio_get tps68470_h
        (tps68470_gpio_set tps68470_h (memRegmap fun _ => 0) 8 1) 8).1 = 1
      ∧ (tps68470_gpio_get tps68470_h
        (tps68470_gpio_set tps68470_h (memRegmap fun _ => 0xff) 3 0) 3).1 = 0 :=
  ⟨tps68470_gpio_set_get_roundtrip tps68470_h (memRegmap fun _ => 0) 8 1
      (fun _ _ => rfl) (by decide),
    tps68470_gpio_set_get_roundtrip tps68470_h (memRegmap fun _ => 0xff) 3 0
      (fun _ _ => rfl) (by decide)⟩

/-! ## The direction of a pin -/

theorem update32_and_mask (old mask val : Nat) :
    update32 old mask val &&& (mask % 2 ^ 32) = (val &&& mask) % 2 ^ 32 := by
  apply Nat.eq_of_testBit_eq
  intro j
  unfold update32
  simp only [Nat.testBit_or, Nat.testBit_and, Nat.testBit_xor, Nat.testBit_mod_two_pow,
    Nat.testBit_two_pow_sub_one]
  by_cases hj : j < 32 <;> by_cases hm : mask.testBit j = true <;> simp [hj, hm]

theorem read_after_update (map : Regmap) (reg mask val : Nat) (hf : map.Faithful) :
    (regmap_read (regmap_update_bits map reg mask val).2 reg).1 = 0
      ∧ (regmap_read (regmap_update_bits map reg mask val).2 reg).2.1
        = update32 (map.regs reg) mask val := by
  rw [regmap_read_faithful _ _ (regmap_update_bits_faithful _ _ _ _ hf),
    regmap_update_bits_regs _ _ _ _ hf]
  refine ⟨rfl, ?_⟩
  dsimp only
  rw [if_pos rfl]
  exact Nat.mod_eq_of_lt (update32_lt _ _ _)

theorem int32_of_lt {x : Nat} (h : x < 2 ^ 31) : int32 x = (x : Int) := by
  unfold int32
  have hx : x % 2 ^ 32 = x := Nat.mod_eq_of_lt (by omega)
  rw [hx, if_pos h]

theorem direction_after_mode_update (hdr : Tps68470Hdr) (map : Regmap) (offset val : Nat)
    (hf : map.Faithful) (ho : offset < TPS68470_N_REGULAR_GPIO) :
    (tps68470_gpio_get_direction hdr
        (regmap_update_bits map (hdr.TPS68470_GPIO_CTL_REG_A offset)
          hdr.TPS68470_GPIO_MODE_MASK val).2 offset).1
      = if int32 ((val &&& hdr.TPS68470_GPIO_MODE_MASK) % 2 ^ 32)
            ≥ (hdr.TPS68470_GPIO_MODE_OUT_CMOS : Int)
          then GPIO_LINE_DIRECTION_OUT else GPIO_LINE_DIRECTION_IN := by
  unfold tps68470_gpio_get_direction
  rw [if_neg (Nat.not_le.mpr ho)]
  dsimp only
  obtain ⟨h1, h2⟩ := read_after_update map (hdr.TPS68470_GPIO_CTL_REG_A offset)
    hdr.TPS68470_GPIO_MODE_MASK val hf
  rw [if_neg (not_not.mpr h1), h2, update32_and_mask]

/-- C2: over a register map that never fails, for every regular pin (offset
below 7), every initial contents and every initial value,
`tps68470_gpio_get_direction` returns OUT (0) after `tps68470_gpio_output`
and IN (1) after `tps68470_gpio_input`, for header constants where the
output-CMOS mode value is a non-zero `int` constant inside the mode mask. -/
theorem tps68470_gpio_direction_after_configure (hdr : Tps68470Hdr) (regmap : Regmap)
    (offset : Nat) (value : Int) (hf : regmap.Faithful)
    (ho : offset < TPS68470_N_REGULAR_GPIO)
    (hpos : 0 < hdr.TPS68470_GPIO_MODE_OUT_CMOS)
    (hin : hdr.TPS68470_GPIO_MODE_OUT_CMOS &&& hdr.TPS68470_GPIO_MODE_MASK
      = hdr.TPS68470_GPIO_MODE_OUT_CMOS)
    (hint : hdr.TPS68470_GPIO_MODE_OUT_CMOS < 2 ^ 31) :
    (tps68470_gpio_get_direction hdr (tps68470_gpio_output hdr regmap offset value).2 offset).1
        = GPIO_LINE_DIRECTION_OUT
      ∧ (tps68470_gpio_get_direction hdr (tps68470_gpio_input hdr regmap offset).2 offset).1
        = GPIO_LINE_DIRECTION_IN := by
  constructor
  · unfold tps68470_gpio_output
    rw [if_neg (Nat.not_le.mpr ho)]
    dsimp only
    rw [direction_after_mode_update hdr _ offset _
      (tps68470_gpio_set_faithful hdr regmap offset value hf) ho, hin,
      Nat.mod_eq_of_lt (by omega : hdr.TPS68470_GPIO_MODE_OUT_CMOS < 2 ^ 32),
      int32_of_lt hint]
    exact if_pos (le_refl _)
  · unfold tps68470_gpio_input
    rw [if_neg (Nat.not_le.mpr ho)]
    rw [direction_after_mode_update hdr _ offset _ hf ho]
    have h0 : (0x00 &&& hdr.TPS68470_GPIO_MODE_MASK) % 2 ^ 32 = 0 := by simp
    rw [h0, int32_of_lt (by decide : 0 < 2 ^ 31)]
    apply if_neg
    simp only [ge_iff_le, not_le]
    exact_mod_cast hpos

theorem tps68470_gpio_direction_after_configure_witness :
    (tps68470_gpio_get_direction tps68470_h
        (tps68470_gpio_output tps68470_h (memRegmap fun _ => 0) 4 1).2 4).1
        = GPIO_LINE_DIRECTION_OUT
      ∧ (tps68470_gpio_get_direction tps68470_h
        (tps68470_gpio_input tps68470_h (memRegmap fun _ => 0) 4).2 4).1
        = GPIO_LINE_DIRECTION_IN :=
  tps68470_gpio_direction_after_configure tps68470_h (memRegmap fun _ => 0) 4 1
    (fun _ _ => rfl) (by decide) (by decide) (by decide) (by decide)

/-- C3: for every logic-output pin (offset at least 7, in particular 7, 8
and 9) and every register map, failing or not, `tps68470_gpio_get_direction`
returns OUT and `tps68470_gpio_input` returns `-EINVAL`; both hand back the
register map they were given, so no operation is logged and no register
changes. -/
theorem tps68470_gpio_logic_output_fixed_direction (hdr : Tps68470Hdr) (regmap : Regmap)
    (offset : Nat) (ho : TPS68470_N_REGULAR_GPIO ≤ offset) :
    tps68470_gpio_get_direction hdr regmap offset = (GPIO_LINE_DIRECTION_OUT, regmap)
      ∧ tps68470_gpio_input hdr regmap offset = (-EINVAL, regmap) := by
  unfold tps68470_gpio_get_direction tps68470_gpio_input
  rw [if_pos ho, if_pos ho]
  exact ⟨rfl, rfl⟩

theorem tps68470_gpio_logic_output_fixed_direction_witness :
    tps68470_gpio_get_direction tps68470_h
        (Regmap.mk (fun _ => 5) (fun _ _ => -5) [RegOp.read 1]) 9
        = (0, Regmap.mk (fun _ => 5) (fun _ _ => -5) [RegOp.read 1])
      ∧ tps68470_gpio_input tps68470_h
        (Regmap.mk (fun _ => 5) (fun _ _ => -5) [RegOp.read 1]) 9
        = (-22, Regmap.mk (fun _ => 5) (fun _ _ => -5) [RegOp.read 1]) :=
  tps68470_gpio_logic_output_fixed_direction tps68470_h
    (Regmap.mk (fun _ => 5) (fun _ _ => -5) [RegOp.read 1]) 9 (by decide)

/-! ## Configuring a pin as an output -/

theorem tps68470_gpio_get_faithful (hdr : Tps68470Hdr) (map : Regmap) (offset : Nat)
    (hf : map.Faithful) :
    (tps68470_gpio_get hdr map offset).1
      = if sext64 (map.regs (if offset ≥ TPS68470_N_REGULAR_GPIO then hdr.TPS68470_REG_SGPO
            else hdr.TPS68470_REG_GPDO) % 2 ^ 32)
          &&& BIT (if offset ≥ TPS68470_N_REGULAR_GPIO then offset - TPS68470_N_REGULAR_GPIO
            else offset) ≠ 0
        then 1 else 0 := by
  unfold tps68470_gpio_get
  dsimp only
  rw [regmap_read_faithful _ _ hf]
  rfl

theorem regmap_update_bits_regs_of_ne (map : Regmap) (reg mask val r : Nat)
    (h : r ≠ reg) : (regmap_update_bits map reg mask val).2.regs r = map.regs r := by
  unfold regmap_update_bits
  dsimp only
  split
  · rfl
  · exact if_neg h

/-- C4, as stated, fails on the logic-output pins: on an in-memory register
map holding zeros, `tps68470_gpio_output` for pin 7 with value 1 returns 0
without issuing any operation, and `tps68470_gpio_get` for pin 7 then
returns 0, not 1. -/
theorem tps68470_gpio_output_logic_pin_counterexample :
    (memRegmap fun _ => 0).Faithful
      ∧ 7 < TPS68470_N_GPIO
      ∧ (tps68470_gpio_output tps68470_h (memRegmap fun _ => 0) 7 1).1 = 0
      ∧ (tps68470_gpio_output tps68470_h (memRegmap fun _ => 0) 7 1).2.log = []
      ∧ (tps68470_gpio_get tps68470_h
          (tps68470_gpio_output tps68470_h (memRegmap fun _ => 0) 7 1).2 7).1 = 0
      ∧ (tps68470_gpio_get tps68470_h
          (tps68470_gpio_output tps68470_h (memRegmap fun _ => 0) 7 1).2 7).1
        ≠ (if (1 : Int) ≠ 0 then 1 else 0) := by
  refine ⟨fun _ _ => rfl, by decide, by decide, by decide, by decide, by decide⟩

/-- C4, amended to the regular pins: over a register map that never fails,
for every offset below 7 whose mode-control register is not output register
A, every `int` value and every initial contents, `tps68470_gpio_output`
succeeds, `tps68470_gpio_get` then returns 1 when the value is non-zero and 0
otherwise, the final contents are those of `tps68470_gpio_set` followed by
the mode update, and the operations issued are the level update followed by
the mode-control update. -/
theorem tps68470_gpio_output_regular_pin (hdr : Tps68470Hdr) (regmap : Regmap) (offset : Nat)
    (value : Int) (hf : regmap.Faithful) (ho : offset < TPS68470_N_REGULAR_GPIO)
    (hreg : hdr.TPS68470_GPIO_CTL_REG_A offset ≠ hdr.TPS68470_REG_GPDO) :
    (tps68470_gpio_output hdr regmap offset value).1 = 0
      ∧ (tps68470_gpio_get hdr (tps68470_gpio_output hdr regmap offset value).2 offset).1
        = (if value ≠ 0 then 1 else 0)
      ∧ (tps68470_gpio_output hdr regmap offset value).2.regs
        = (regmap_update_bits (tps68470_gpio_set hdr regmap offset value)
            (hdr.TPS68470_GPIO_CTL_REG_A offset) hdr.TPS68470_GPIO_MODE_MASK
            hdr.TPS68470_GPIO_MODE_OUT_CMOS).2.regs
      ∧ (tps68470_gpio_output hdr regmap offset value).2.log
        = regmap.log
          ++ [RegOp.update_bits hdr.TPS68470_REG_GPDO (BIT offset % 2 ^ 32)
                ((if value ≠ 0 then BIT offset else 0) % 2 ^ 32),
              RegOp.update_bits (hdr.TPS68470_GPIO_CTL_REG_A offset)
                (hdr.TPS68470_GPIO_MODE_MASK % 2 ^ 32)
                (hdr.TPS68470_GPIO_MODE_OUT_CMOS % 2 ^ 32)] := by
  have hge : ¬ offset ≥ TPS68470_N_REGULAR_GPIO := Nat.not_le.mpr ho
  have hf1 := tps68470_gpio_set_faithful hdr regmap offset value hf
  have hout : tps68470_gpio_output hdr regmap offset value
      = regmap_update_bits (tps68470_gpio_set hdr regmap offset value)
          (hdr.TPS68470_GPIO_CTL_REG_A offset) hdr.TPS68470_GPIO_MODE_MASK
          hdr.TPS68470_GPIO_MODE_OUT_CMOS := by
    unfold tps68470_gpio_output
    rw [if_neg hge]
  have hset : tps68470_gpio_set hdr regmap offset value
      = (regmap_update_bits regmap hdr.TPS68470_REG_GPDO (BIT offset)
          (if value ≠ 0 then BIT offset else 0)).2 := by
    unfold tps68470_gpio_set
    dsimp only
    rw [if_neg hge, if_neg hge]
  have h32 : offset < 32 := by
    unfold TPS68470_N_REGULAR_GPIO at ho
    omega
  have hf2 : (tps68470_gpio_output hdr regmap offset value).2.Faithful := by
    rw [hout]
    exact regmap_update_bits_faithful _ _ _ _ hf1
  refine ⟨?_, ?_, ?_, ?_⟩
  · rw [hout, regmap_update_bits_ret]
    exact hf1 _ _
  · rw [tps68470_gpio_get_faithful _ _ _ hf2, if_neg hge, if_neg hge, hout,
      regmap_update_bits_regs_of_ne _ _ _ _ _ hreg.symm, hset,
      regmap_update_bits_regs _ _ _ _ hf]
    dsimp only
    rw [if_pos rfl]
    exact if_congr (level_bit_update32 _ _ _ h32) rfl rfl
  · rw [hout]
  · rw [hout, regmap_update_bits_log, hset, regmap_update_bits_log, List.append_assoc]
    rfl

theorem tps68470_gpio_output_regular_pin_witness :
    (tps68470_gpio_output tps68470_h (memRegmap fun _ => 0) 2 1).1 = 0
      ∧ (tps68470_gpio_get tps68470_h
          (tps68470_gpio_output tps68470_h (memRegmap fun _ => 0) 2 1).2 2).1 = 1
      ∧ (tps68470_gpio_output tps68470_h (memRegmap fun _ => 0) 2 1).2.log
        = [RegOp.update_bits 0x27 4 4, RegOp.update_bits 0x18 3 2] :=
  have h := tps68470_gpio_output_regular_pin tps68470_h (memRegmap fun _ => 0) 2 1
    (fun _ _ => rfl) (by decide) (by decide)
  ⟨h.1, h.2.1, h.2.2.2⟩

/-! ## The regulator -/

/-- C5: after any sequence of `tps68470_regulator_enable` and
`tps68470_regulator_disable` calls on any register map, failing or not,
`tps68470_regulator_get_voltage` returns exactly 3300000, which is the
descriptor's `fixed_uV` and not an error code, and hands back the register
map as it was: no operation is logged and no register changes. -/
theorem tps68470_regulator_get_voltage_fixed (hdr : Tps68470Hdr) (regmap : Regmap)
    (calls : List RegulatorCall) :
    tps68470_regulator_get_voltage (runRegulatorCalls hdr regmap calls)
        = (3300000, runRegulatorCalls hdr regmap calls)
      ∧ (tps68470_regulator_get_voltage (runRegulatorCalls hdr regmap calls)).1
        = tps68470_regulator_desc.fixed_uV
      ∧ 0 < (tps68470_regulator_get_voltage (runRegulatorCalls hdr regmap calls)).1 := by
  refine ⟨rfl, rfl, ?_⟩
  show (0 : Int) < 3300000
  decide

theorem testBit_update32_all (old mask val j : Nat) :
    (update32 old mask val).testBit j
      = (decide (j < 32) && if mask.testBit j = true then val.testBit j else old.testBit j) := by
  unfold update32
  simp only [Nat.testBit_or, Nat.testBit_and, Nat.testBit_xor, Nat.testBit_mod_two_pow,
    Nat.testBit_two_pow_sub_one]
  by_cases hj : j < 32 <;> by_cases hm : mask.testBit j = true <;> simp [hj, hm]

theorem update32_idem (old mask val : Nat) :
    update32 (update32 old mask val) mask val = update32 old mask val := by
  apply Nat.eq_of_testBit_eq
  intro j
  rw [testBit_update32_all, testBit_update32_all]
  by_cases hj : j < 32 <;> by_cases hm : mask.testBit j = true <;> simp [hj, hm]

theorem tps68470_regulator_enable_snd (hdr : Tps68470Hdr) (map : Regmap) :
    (tps68470_regulator_enable hdr map).2
      = (regmap_update_bits map hdr.TPS68470_REG_VAUX1CTL hdr.TPS68470_VAUX1CTL_EN_MASK 1).2 := by
  unfold tps68470_regulator_enable
  dsimp only
  split <;> rfl

theorem tps68470_regulator_disable_snd (hdr : Tps68470Hdr) (map : Regmap) :
    (tps68470_regulator_disable hdr map).2
      = (regmap_update_bits map hdr.TPS68470_REG_VAUX1CTL hdr.TPS68470_VAUX1CTL_EN_MASK 0).2 := by
  unfold tps68470_regulator_disable
  dsimp only
  split <;> rfl

theorem tps68470_regulator_is_enabled_faithful (hdr : Tps68470Hdr) (map : Regmap)
    (hf : map.Faithful) :
    (tps68470_regulator_is_enabled hdr map).1
      = if (map.regs hdr.TPS68470_REG_VAUX1CTL % 2 ^ 32)
          &&& (hdr.TPS68470_VAUX1CTL_EN_MASK % 2 ^ 32) ≠ 0 then 1 else 0 := by
  unfold tps68470_regulator_is_enabled
  dsimp only
  rw [regmap_read_faithful _ _ hf]
  dsimp only
  rw [if_neg (not_not.mpr rfl)]
  split <;> rfl

theorem is_enabled_after_update (hdr : Tps68470Hdr) (map : Regmap) (val : Nat)
    (hf : map.Faithful) :
    (tps68470_regulator_is_enabled hdr
        (regmap_update_bits map hdr.TPS68470_REG_VAUX1CTL
          hdr.TPS68470_VAUX1CTL_EN_MASK val).2).1
      = if (val &&& hdr.TPS68470_VAUX1CTL_EN_MASK) % 2 ^ 32 ≠ 0 then 1 else 0 := by
  rw [tps68470_regulator_is_enabled_faithful _ _ (regmap_update_bits_faithful _ _ _ _ hf),
    regmap_update_bits_regs _ _ _ _ hf]
  dsimp only
  rw [if_pos rfl, Nat.mod_eq_of_lt (update32_lt _ _ _), update32_and_mask]

/-- Repeating a fault-free `update_bits` with the same arguments keeps the map
fault-free and leaves the contents of the first application. -/
theorem iterate_update_bits (map : Regmap) (reg mask val : Nat) (hf : map.Faithful)
    (f : Regmap → Regmap) (hfun : ∀ m, f m = (regmap_update_bits m reg mask val).2) (n : Nat) :
    (f^[n + 1] map).Faithful ∧ (f^[n + 1] map).regs = (f map).regs := by
  induction n with
  | zero =>
    refine ⟨?_, rfl⟩
    rw [Function.iterate_one, hfun]
    exact regmap_update_bits_faithful _ _ _ _ hf
  | succ k ih =>
    rw [Function.iterate_succ_apply', hfun (f^[k + 1] map)]
    refine ⟨regmap_update_bits_faithful _ _ _ _ ih.1, ?_⟩
    rw [regmap_update_bits_regs _ _ _ _ ih.1, ih.2, hfun map,
      regmap_update_bits_regs _ _ _ _ hf]
    funext r
    by_cases hr : r = reg
    · simp only [hr, if_true]
      exact update32_idem _ _ _
    · simp only [hr, if_false]

/-- C6: over a register map that never fails, for every initial contents and
an enable mask that contains bit 0 (the bit `tps68470_regulator_enable`
writes), `tps68470_regulator_is_enabled` returns 1 after enable and 0 after
disable; calling enable (or disable) `n ≥ 1` times leaves the register
contents and the `is_enabled` result of a single call. -/
theorem tps68470_regulator_enable_disable_roundtrip (hdr : Tps68470Hdr) (regmap : Regmap)
    (n : Nat) (hf : regmap.Faithful) (hbit : hdr.TPS68470_VAUX1CTL_EN_MASK % 2 = 1)
    (hn : 1 ≤ n) :
    (tps68470_regulator_is_enabled hdr (tps68470_regulator_enable hdr regmap).2).1 = 1
      ∧ (tps68470_regulator_is_enabled hdr (tps68470_regulator_disable hdr regmap).2).1 = 0
      ∧ ((fun m => (tps68470_regulator_enable hdr m).2)^[n] regmap).regs
        = (tps68470_regulator_enable hdr regmap).2.regs
      ∧ (tps68470_regulator_is_enabled hdr
          ((fun m => (tps68470_regulator_enable hdr m).2)^[n] regmap)).1 = 1
      ∧ ((fun m => (tps68470_regulator_disable hdr m).2)^[n] regmap).regs
        = (tps68470_regulator_disable hdr regmap).2.regs
      ∧ (tps68470_regulator_is_enabled hdr
          ((fun m => (tps68470_regulator_disable hdr m).2)^[n] regmap)).1 = 0 := by
  obtain ⟨k, rfl⟩ : ∃ k, n = k + 1 := ⟨n - 1, by omega⟩
  have hen := iterate_update_bits regmap hdr.TPS68470_REG_VAUX1CTL
    hdr.TPS68470_VAUX1CTL_EN_MASK 1 hf (fun m => (tps68470_regulator_enable hdr m).2)
    (fun m => tps68470_regulator_enable_snd hdr m) k
  have hdis := iterate_update_bits regmap hdr.TPS68470_REG_VAUX1CTL
    hdr.TPS68470_VAUX1CTL_EN_MASK 0 hf (fun m => (tps68470_regulator_disable hdr m).2)
    (fun m => tps68470_regulator_disable_snd hdr m) k
  have h1 : (tps68470_regulator_is_enabled hdr (tps68470_regulator_enable hdr regmap).2).1
      = 1 := by
    rw [tps68470_regulator_enable_snd, is_enabled_after_update _ _ _ hf,
      Nat.one_and_eq_mod_two, hbit]
    rfl
  have h0 : (tps68470_regulator_is_enabled hdr (tps68470_regulator_disable hdr regmap).2).1
      = 0 := by
    rw [tps68470_regulator_disable_snd, is_enabled_after_update _ _ _ hf, Nat.zero_and]
    rfl
  have hfe : (tps68470_regulator_enable hdr regmap).2.Faithful := by
    rw [tps68470_regulator_enable_snd]
    exact regmap_update_bits_faithful _ _ _ _ hf
  have hfd : (tps68470_regulator_disable hdr regmap).2.Faithful := by
    rw [tps68470_regulator_disable_snd]
    exact regmap_update_bits_faithful _ _ _ _ hf
  refine ⟨h1, h0, hen.2, ?_, hdis.2, ?_⟩
  · rw [tps68470_regulator_is_enabled_faithful _ _ hen.1, hen.2,
      ← tps68470_regulator_is_enabled_faithful _ _ hfe]
    exact h1
  · rw [tps68470_regulator_is_enabled_faithful _ _ hdis.1, hdis.2,
      ← tps68470_regulator_is_enabled_faithful _ _ hfd]
    exact h0

theorem tps68470_regulator_enable_disable_roundtrip_witness :
    (tps68470_regulator_is_enabled tps68470_h
        (tps68470_regulator_enable tps68470_h (memRegmap fun _ => 0xa0)).2).1 = 1
      ∧ (tps68470_regulator_is_enabled tps68470_h
        (tps68470_regulator_disable tps68470_h (memRegmap fun _ => 0xa1)).2).1 = 0
      ∧ (tps68470_regulator_is_enabled tps68470_h
          ((fun m => (tps68470_regulator_enable tps68470_h m).2)^[3]
            (memRegmap fun _ => 0xa0))).1 = 1 :=
  have h := tps68470_regulator_enable_disable_roundtrip tps68470_h (memRegmap fun _ => 0xa0) 3
    (fun _ _ => rfl) (by decide) (by decide)
  ⟨h.1, (tps68470_regulator_enable_disable_roundtrip tps68470_h (memRegmap fun _ => 0xa1) 3
    (fun _ _ => rfl) (by decide) (by decide)).2.1, h.2.2.2.1⟩

/-! ## Probing the regulator -/

/-- C7, as stated, fails: with no "regulators" child the probe function
returns `-EINVAL` (-22), which is not the not-found code `-ENOENT` (-2). -/
theorem tps68470_regulator_probe_not_found_counterexample :
    (tps68470_regulator_probe
        (ProbeHost.mk true true (fun _ => false) (fun _ _ => 1) 4096)).1 = -22
      ∧ (tps68470_regulator_probe
        (ProbeHost.mk true true (fun _ => false) (fun _ _ => 1) 4096)).1 ≠ -ENOENT
      ∧ -EINVAL ≠ -ENOENT := by
  refine ⟨by decide, by decide, by decide⟩

/-- C7, amended: for every host whose allocation succeeds and whose device
node exists but has no "regulators" child, `tps68470_regulator_probe` fails
with the invalid-argument code `-EINVAL` after the allocation and the two
node lookups; `devm_regulator_register` is not among the host calls made. -/
theorem tps68470_regulator_probe_no_regulators (host : ProbeHost)
    (halloc : host.devm_kzalloc = true) (hnode : host.of_node_get = true)
    (hchild : host.of_get_child_by_name "regulators" = false) :
    tps68470_regulator_probe host
        = (-EINVAL, [HostCall.devm_kzalloc, HostCall.of_node_get,
            HostCall.of_get_child_by_name "regulators"])
      ∧ HostCall.devm_regulator_register ∉ (tps68470_regulator_probe host).2 := by
  have h : tps68470_regulator_probe host
      = (-EINVAL, [HostCall.devm_kzalloc, HostCall.of_node_get,
          HostCall.of_get_child_by_name "regulators"]) := by
    unfold tps68470_regulator_probe
    simp [halloc, hnode, hchild]
  refine ⟨h, ?_⟩
  rw [h]
  decide

theorem tps68470_regulator_probe_no_regulators_witness :
    tps68470_regulator_probe (ProbeHost.mk true true (fun _ => false) (fun _ _ => 1) 4096)
        = (-EINVAL, [HostCall.devm_kzalloc, HostCall.of_node_get,
            HostCall.of_get_child_by_name "regulators"])
      ∧ HostCall.devm_regulator_register
        ∉ (tps68470_regulator_probe
            (ProbeHost.mk true true (fun _ => false) (fun _ _ => 1) 4096)).2 :=
  tps68470_regulator_probe_no_regulators
    (ProbeHost.mk true true (fun _ => false) (fun _ _ => 1) 4096) rfl rfl rfl

/-- C8, as stated, fails: when the match call reports zero matches for the
"fixed" descriptor and the host accepts the registration, the probe function
calls `devm_regulator_register` and returns 0. -/
theorem tps68470_regulator_probe_zero_matches_counterexample :
    tps68470_regulator_probe (ProbeHost.mk true true (fun _ => true) (fun _ _ => 0) 4096)
      = (0, [HostCall.devm_kzalloc, HostCall.of_node_get,
          HostCall.of_get_child_by_name "regulators",
          HostCall.of_regulator_match ["fixed"] 1, HostCall.of_node_put,
          HostCall.dev_get_drvdata, HostCall.devm_regulator_register,
          HostCall.platform_set_drvdata]) := by
  decide

/-- C8, amended: for every host whose allocation succeeds and whose device
node has a "regulators" child, `tps68470_regulator_probe` passes the single
"fixed" descriptor to the match call; when that returns a negative error the
probe function returns that error and does not call
`devm_regulator_register`, and when it returns any count from zero up the
registration is attempted. -/
theorem tps68470_regulator_probe_match_result (host : ProbeHost)
    (halloc : host.devm_kzalloc = true) (hnode : host.of_node_get = true)
    (hchild : host.of_get_child_by_name "regulators" = true) :
    HostCall.of_regulator_match ["fixed"] 1 ∈ (tps68470_regulator_probe host).2
      ∧ (host.of_regulator_match ["fixed"] 1 < 0 →
          (tps68470_regulator_probe host).1 = host.of_regulator_match ["fixed"] 1
            ∧ HostCall.devm_regulator_register ∉ (tps68470_regulator_probe host).2)
      ∧ (0 ≤ host.of_regulator_match ["fixed"] 1 →
          HostCall.devm_regulator_register ∈ (tps68470_regulator_probe host).2) := by
  unfold tps68470_regulator_probe
  simp only [halloc, hnode, hchild, tps68470_matches, List.map, List.length]
  by_cases hret : host.of_regulator_match ["fixed"] 1 < 0
  · simp [hret]
  · by_cases herr : IS_ERR host.devm_regulator_register = true <;> simp [hret, herr]

theorem tps68470_regulator_probe_match_result_witness :
    ((tps68470_regulator_probe
          (ProbeHost.mk true true (fun _ => true) (fun _ _ => -22) 4096)).1 = -22
        ∧ HostCall.devm_regulator_register
          ∉ (tps68470_regulator_probe
              (ProbeHost.mk true true (fun _ => true) (fun _ _ => -22) 4096)).2)
      ∧ HostCall.devm_regulator_register
        ∈ (tps68470_regulator_probe
            (ProbeHost.mk true true (fun _ => true) (fun _ _ => 1) 4096)).2 :=
  ⟨(tps68470_regulator_probe_match_result
      (ProbeHost.mk true true (fun _ => true) (fun _ _ => -22) 4096) rfl rfl rfl).2.1
      (by decide),
    (tps68470_regulator_probe_match_result
      (ProbeHost.mk true true (fun _ => true) (fun _ _ => 1) 4096) rfl rfl rfl).2.2
      (by decide)⟩

/-! ## Transport failures -/

/-- C9, as stated, fails for `tps68470_gpio_output`: on a register map whose
transport fails (code -5) exactly on the level write to output register A,
configuring pin 0 as an output with value 1 issues the failing level write
and then the mode-control write, leaves the level register as it was, and
returns 0. -/
theorem tps68470_gpio_output_level_failure_counterexample :
    (Regmap.mk (fun _ => 0)
        (fun _ op => if op = RegOp.update_bits 0x27 1 1 then -5 else 0) []).fault []
        (RegOp.update_bits 0x27 1 1) = -5
      ∧ (tps68470_gpio_output tps68470_h
        (Regmap.mk (fun _ => 0)
          (fun _ op => if op = RegOp.update_bits 0x27 1 1 then -5 else 0) []) 0 1).1 = 0
      ∧ (tps68470_gpio_output tps68470_h
        (Regmap.mk (fun _ => 0)
          (fun _ op => if op = RegOp.update_bits 0x27 1 1 then -5 else 0) []) 0 1).2.log
        = [RegOp.update_bits 0x27 1 1, RegOp.update_bits 0x14 3 2]
      ∧ (tps68470_gpio_output tps68470_h
        (Regmap.mk (fun _ => 0)
          (fun _ op => if op = RegOp.update_bits 0x27 1 1 then -5 else 0) []) 0 1).2.regs 0x27
        = 0 := by
  refine ⟨by decide, by decide, by decide, by decide⟩

/-- C9, amended: for every register map and every regular pin (offset below
7), `tps68470_gpio_output` returns exactly the result of its mode-control
write, whatever the result of the level write before it (issued through the
`void` function `tps68470_gpio_set`); `tps68470_gpio_input`,
`tps68470_regulator_enable` and `tps68470_regulator_disable` return exactly
the result of their one `update_bits`.  So every error code the transport
gives for these writes is the result of the operation. -/
theorem tps68470_write_errors_surfaced (hdr : Tps68470Hdr) (regmap : Regmap) (offset : Nat)
    (value : Int) (ho : offset < TPS68470_N_REGULAR_GPIO) :
    (tps68470_gpio_output hdr regmap offset value).1
        = regmap.fault
          (regmap.log ++ [RegOp.update_bits hdr.TPS68470_REG_GPDO (BIT offset % 2 ^ 32)
            ((if value ≠ 0 then BIT offset else 0) % 2 ^ 32)])
          (RegOp.update_bits (hdr.TPS68470_GPIO_CTL_REG_A offset)
            (hdr.TPS68470_GPIO_MODE_MASK % 2 ^ 32) (hdr.TPS68470_GPIO_MODE_OUT_CMOS % 2 ^ 32))
      ∧ (tps68470_gpio_input hdr regmap offset).1
        = regmap.fault regmap.log
          (RegOp.update_bits (hdr.TPS68470_GPIO_CTL_REG_A offset)
            (hdr.TPS68470_GPIO_MODE_MASK % 2 ^ 32) 0)
      ∧ (tps68470_regulator_enable hdr regmap).1
        = regmap.fault regmap.log
          (RegOp.update_bits hdr.TPS68470_REG_VAUX1CTL
            (hdr.TPS68470_VAUX1CTL_EN_MASK % 2 ^ 32) 1)
      ∧ (tps68470_regulator_disable hdr regmap).1
        = regmap.fault regmap.log
          (RegOp.update_bits hdr.TPS68470_REG_VAUX1CTL
            (hdr.TPS68470_VAUX1CTL_EN_MASK % 2 ^ 32) 0) := by
  have hge : ¬ offset ≥ TPS68470_N_REGULAR_GPIO := Nat.not_le.mpr ho
  refine ⟨?_, ?_, ?_, ?_⟩
  · unfold tps68470_gpio_output
    rw [if_neg hge]
    dsimp only
    rw [regmap_update_bits_ret]
    unfold tps68470_gpio_set
    dsimp only
    rw [if_neg hge, if_neg hge, regmap_update_bits_fault, regmap_update_bits_log]
  · unfold tps68470_gpio_input
    rw [if_neg hge, regmap_update_bits_ret]
    rfl
  · have h : (tps68470_regulator_enable hdr regmap).1
        = (regmap_update_bits regmap hdr.TPS68470_REG_VAUX1CTL
            hdr.TPS68470_VAUX1CTL_EN_MASK 1).1 := by
      unfold tps68470_regulator_enable
      dsimp only
      split
      · rfl
      · rename_i h0
        exact (not_not.mp h0).symm
    rw [h, regmap_update_bits_ret]
    rfl
  · have h : (tps68470_regulator_disable hdr regmap).1
        = (regmap_update_bits regmap hdr.TPS68470_REG_VAUX1CTL
            hdr.TPS68470_VAUX1CTL_EN_MASK 0).1 := by
      unfold tps68470_regulator_disable
      dsimp only
      split
      · rfl
      · rename_i h0
        exact (not_not.mp h0).symm
    rw [h, regmap_update_bits_ret]
    rfl

theorem tps68470_write_errors_surfaced_witness :
    (tps68470_gpio_output tps68470_h
        (Regmap.mk (fun _ => 0)
          (fun _ op => if op = RegOp.update_bits 0x18 3 2 then -5 else 0) []) 2 1).1 = -5
      ∧ (tps68470_gpio_input tps68470_h
        (Regmap.mk (fun _ => 0) (fun _ _ => -5) []) 2).1 = -5
      ∧ (tps68470_regulator_enable tps68470_h
        (Regmap.mk (fun _ => 0) (fun _ _ => -5) [])).1 = -5
      ∧ (tps68470_regulator_disable tps68470_h
        (Regmap.mk (fun _ => 0) (fun _ _ => -5) [])).1 = -5 :=
  ⟨(tps68470_write_errors_surfaced tps68470_h
      (Regmap.mk (fun _ => 0)
        (fun _ op => if op = RegOp.update_bits 0x18 3 2 then -5 else 0) []) 2 1
      (by decide)).1,
    (tps68470_write_errors_surfaced tps68470_h
      (Regmap.mk (fun _ => 0) (fun _ _ => -5) []) 2 1 (by decide)).2⟩

theorem regmap_read_ret (map : Regmap) (reg : Nat) :
    (regmap_read map reg).1 = map.fault map.log (RegOp.read reg) := by
  unfold regmap_read
  dsimp only
  split
  · rfl
  · rename_i h
    exact (not_not.mp h).symm

theorem ite_one_zero_cases (c : Prop) [Decidable c] (a b : Int)
    (h : (a = 0 ∨ a = 1) ∧ (b = 0 ∨ b = 1)) :
    (if c then a else b) = 0 ∨ (if c then a else b) = 1 := by
  by_cases hc : c
  · rw [if_pos hc]; exact h.1
  · rw [if_neg hc]; exact h.2

/-- C10: for every register map and every negative error code `e`: when the
transport fails the register read with `e`, `tps68470_gpio_get` (any pin
offset, so each of 0 to 9), `tps68470_gpio_get_direction` (any offset below 7) and
`tps68470_regulator_is_enabled` return exactly `e`; when the read succeeds
each of them returns 0 or 1. -/
theorem tps68470_read_errors_propagated (hdr : Tps68470Hdr) (regmap : Regmap)
    (pin regular : Nat) (e : Int) (hregular : regular < TPS68470_N_REGULAR_GPIO)
    (he : e < 0) :
    (regmap.fault regmap.log
          (RegOp.read (if pin ≥ TPS68470_N_REGULAR_GPIO then hdr.TPS68470_REG_SGPO
            else hdr.TPS68470_REG_GPDO)) = e →
        (tps68470_gpio_get hdr regmap pin).1 = e)
      ∧ (regmap.fault regmap.log (RegOp.read (hdr.TPS68470_GPIO_CTL_REG_A regular)) = e →
        (tps68470_gpio_get_direction hdr regmap regular).1 = e)
      ∧ (regmap.fault regmap.log (RegOp.read hdr.TPS68470_REG_VAUX1CTL) = e →
        (tps68470_regulator_is_enabled hdr regmap).1 = e)
      ∧ (regmap.fault regmap.log
          (RegOp.read (if pin ≥ TPS68470_N_REGULAR_GPIO then hdr.TPS68470_REG_SGPO
            else hdr.TPS68470_REG_GPDO)) = 0 →
        (tps68470_gpio_get hdr regmap pin).1 = 0 ∨ (tps68470_gpio_get hdr regmap pin).1 = 1)
      ∧ (regmap.fault regmap.log (RegOp.read (hdr.TPS68470_GPIO_CTL_REG_A regular)) = 0 →
        (tps68470_gpio_get_direction hdr regmap regular).1 = 0
          ∨ (tps68470_gpio_get_direction hdr regmap regular).1 = 1)
      ∧ (regmap.fault regmap.log (RegOp.read hdr.TPS68470_REG_VAUX1CTL) = 0 →
        (tps68470_regulator_is_enabled hdr regmap).1 = 0
          ∨ (tps68470_regulator_is_enabled hdr regmap).1 = 1) := by
  have hge : ¬ regular ≥ TPS68470_N_REGULAR_GPIO := Nat.not_le.mpr hregular
  have hne : e ≠ 0 := ne_of_lt he
  refine ⟨?_, ?_, ?_, ?_, ?_, ?_⟩
  · intro h
    have hr := regmap_read_ret regmap (if pin ≥ TPS68470_N_REGULAR_GPIO
      then hdr.TPS68470_REG_SGPO else hdr.TPS68470_REG_GPDO)
    unfold tps68470_gpio_get
    dsimp only
    rw [if_pos (by rw [hr, h]; exact hne), hr, h]
  · intro h
    have hr := regmap_read_ret regmap (hdr.TPS68470_GPIO_CTL_REG_A regular)
    unfold tps68470_gpio_get_direction
    rw [if_neg hge]
    dsimp only
    rw [if_pos (by rw [hr, h]; exact hne), hr, h]
  · intro h
    have hr := regmap_read_ret regmap hdr.TPS68470_REG_VAUX1CTL
    unfold tps68470_regulator_is_enabled
    dsimp only
    rw [if_pos (by rw [hr, h]; exact hne), hr, h]
  · intro h
    have hr := regmap_read_ret regmap (if pin ≥ TPS68470_N_REGULAR_GPIO
      then hdr.TPS68470_REG_SGPO else hdr.TPS68470_REG_GPDO)
    unfold tps68470_gpio_get
    dsimp only
    rw [if_neg (by rw [hr, h]; exact not_not.mpr rfl)]
    exact ite_one_zero_cases _ 1 0 ⟨Or.inr rfl, Or.inl rfl⟩
  · intro h
    have hr := regmap_read_ret regmap (hdr.TPS68470_GPIO_CTL_REG_A regular)
    unfold tps68470_gpio_get_direction
    rw [if_neg hge]
    dsimp only
    rw [if_neg (by rw [hr, h]; exact not_not.mpr rfl)]
    exact ite_one_zero_cases _ GPIO_LINE_DIRECTION_OUT GPIO_LINE_DIRECTION_IN
      ⟨Or.inl rfl, Or.inr rfl⟩
  · intro h
    have hr := regmap_read_ret regmap hdr.TPS68470_REG_VAUX1CTL
    unfold tps68470_regulator_is_enabled
    dsimp only
    rw [if_neg (by rw [hr, h]; exact not_not.mpr rfl)]
    split
    · exact Or.inr rfl
    · exact Or.inl rfl

theorem tps68470_read_errors_propagated_witness :
    ((tps68470_gpio_get tps68470_h (Regmap.mk (fun _ => 0) (fun _ _ => -5) []) 8).1 = -5
        ∧ (tps68470_gpio_get_direction tps68470_h
            (Regmap.mk (fun _ => 0) (fun _ _ => -5) []) 3).1 = -5
        ∧ (tps68470_regulator_is_enabled tps68470_h
            (Regmap.mk (fun _ => 0) (fun _ _ => -5) [])).1 = -5)
      ∧ ((tps68470_gpio_get tps68470_h (memRegmap fun _ => 0xff) 8).1 = 0
          ∨ (tps68470_gpio_get tps68470_h (memRegmap fun _ => 0xff) 8).1 = 1) :=
  have hbad := tps68470_read_errors_propagated tps68470_h
    (Regmap.mk (fun _ => 0) (fun _ _ => -5) []) 8 3 (-5) (by decide) (by decide)
  have hgood := tps68470_read_errors_propagated tps68470_h
    (memRegmap fun _ => 0xff) 8 3 (-5) (by decide) (by decide)
  ⟨⟨hbad.1 rfl, hbad.2.1 rfl, hbad.2.2.1 rfl⟩, hgood.2.2.2.1 rfl⟩

/-! ## Logic-output pins configured as outputs -/

/-- C11: for every logic-output pin (offset at least 7, in particular 7, 8
and 9), every initial value and every register map, failing or not,
`tps68470_gpio_output` returns 0 and hands back the register map it was
given: no operation is logged and no register, the logic-output level
register included, changes. -/
theorem tps68470_gpio_output_logic_pin_noop (hdr : Tps68470Hdr) (regmap : Regmap)
    (offset : Nat) (value : Int) (ho : offset ≥ TPS68470_N_REGULAR_GPIO) :
    tps68470_gpio_output hdr regmap offset value = (0, regmap)
      ∧ (tps68470_gpio_output hdr regmap offset value).2.log = regmap.log
      ∧ (tps68470_gpio_output hdr regmap offset value).2.regs hdr.TPS68470_REG_SGPO
        = regmap.regs hdr.TPS68470_REG_SGPO := by
  have h : tps68470_gpio_output hdr regmap offset value = (0, regmap) := by
    unfold tps68470_gpio_output
    rw [if_pos ho]
  rw [h]
  exact ⟨rfl, rfl, rfl⟩

theorem tps68470_gpio_output_logic_pin_noop_witness :
    tps68470_gpio_output tps68470_h
        (Regmap.mk (fun _ => 5) (fun _ _ => -5) [RegOp.read 1]) 8 1
        = (0, Regmap.mk (fun _ => 5) (fun _ _ => -5) [RegOp.read 1]) :=
  (tps68470_gpio_output_logic_pin_noop tps68470_h
    (Regmap.mk (fun _ => 5) (fun _ _ => -5) [RegOp.read 1]) 8 1 (by decide)).1

/-! ## What a query reads -/

theorem regmap_read_ok (map : Regmap) (reg : Nat)
    (h : map.fault map.log (RegOp.read reg) = 0) :
    regmap_read map reg
      = (0, map.regs reg % 2 ^ 32, Regmap.mk map.regs map.fault (map.log ++ [RegOp.read reg])) := by
  unfold regmap_read
  dsimp only
  rw [if_neg (not_not.mpr h)]

theorem regmap_read_snd (map : Regmap) (reg : Nat) :
    (regmap_read map reg).2.2
      = Regmap.mk map.regs map.fault (map.log ++ [RegOp.read reg]) := by
  unfold regmap_read
  dsimp only
  split <;> rfl

theorem level_bit_iff (x i : Nat) (h : i < 32) :
    sext64 (x % 2 ^ 32) &&& BIT i ≠ 0 ↔ x.testBit i = true := by
  rw [BIT_eq_two_pow (by omega : i < 64), and_two_pow_ne_zero_iff, testBit_sext64 _ _ h,
    Nat.testBit_mod_two_pow]
  simp [h]

theorem tps68470_gpio_get_snd (hdr : Tps68470Hdr) (map : Regmap) (offset : Nat) :
    (tps68470_gpio_get hdr map offset).2
      = Regmap.mk map.regs map.fault
          (map.log ++ [RegOp.read (if offset ≥ TPS68470_N_REGULAR_GPIO
            then hdr.TPS68470_REG_SGPO else hdr.TPS68470_REG_GPDO)]) := by
  unfold tps68470_gpio_get
  dsimp only
  generalize (if offset ≥ TPS68470_N_REGULAR_GPIO then hdr.TPS68470_REG_SGPO
    else hdr.TPS68470_REG_GPDO) = reg
  by_cases h : (regmap_read map reg).1 ≠ 0
  · rw [if_pos h]
    exact regmap_read_snd _ _
  · rw [if_neg h]
    exact regmap_read_snd _ _

theorem pin_bit_lt (offset : Nat) (ho : offset < TPS68470_N_GPIO) :
    (if offset ≥ TPS68470_N_REGULAR_GPIO then offset - TPS68470_N_REGULAR_GPIO
      else offset) < 32 := by
  unfold TPS68470_N_GPIO TPS68470_N_LOGIC_OUTPUT TPS68470_N_REGULAR_GPIO at ho
  split <;> omega

theorem tps68470_gpio_get_ok (hdr : Tps68470Hdr) (map : Regmap) (offset : Nat)
    (ho : offset < TPS68470_N_GPIO)
    (hs : map.fault map.log (RegOp.read (if offset ≥ TPS68470_N_REGULAR_GPIO
      then hdr.TPS68470_REG_SGPO else hdr.TPS68470_REG_GPDO)) = 0) :
    (tps68470_gpio_get hdr map offset).1
      = if (map.regs (if offset ≥ TPS68470_N_REGULAR_GPIO then hdr.TPS68470_REG_SGPO
            else hdr.TPS68470_REG_GPDO)).testBit
          (if offset ≥ TPS68470_N_REGULAR_GPIO then offset - TPS68470_N_REGULAR_GPIO
            else offset) = true
        then 1 else 0 := by
  unfold tps68470_gpio_get
  dsimp only
  rw [regmap_read_ok _ _ hs]
  dsimp only
  rw [if_neg (not_not.mpr rfl)]
  exact if_congr (level_bit_iff _ _ (pin_bit_lt offset ho)) rfl rfl

/-- C12: for every pin offset below 10 and every register map whose read of
the selected output register succeeds, `tps68470_gpio_get` returns the value
of one bit: bit `offset` of output register A when the offset is below 7, bit
`offset - 7` of output register B otherwise.  The one operation it issues is
the read of that register, the contents are left as they were, and any other
register map that agrees on that bit gives the same result. -/
theorem tps68470_gpio_get_one_bit (hdr : Tps68470Hdr) (regmap : Regmap) (offset : Nat)
    (ho : offset < TPS68470_N_GPIO)
    (hs : regmap.fault regmap.log (RegOp.read (if offset ≥ TPS68470_N_REGULAR_GPIO
      then hdr.TPS68470_REG_SGPO else hdr.TPS68470_REG_GPDO)) = 0) :
    (offset < TPS68470_N_REGULAR_GPIO →
        (tps68470_gpio_get hdr regmap offset).1
          = if (regmap.regs hdr.TPS68470_REG_GPDO).testBit offset = true then 1 else 0)
      ∧ (offset ≥ TPS68470_N_REGULAR_GPIO →
        (tps68470_gpio_get hdr regmap offset).1
          = if (regmap.regs hdr.TPS68470_REG_SGPO).testBit
              (offset - TPS68470_N_REGULAR_GPIO) = true then 1 else 0)
      ∧ (tps68470_gpio_get hdr regmap offset).2.log
        = regmap.log ++ [RegOp.read (if offset ≥ TPS68470_N_REGULAR_GPIO
            then hdr.TPS68470_REG_SGPO else hdr.TPS68470_REG_GPDO)]
      ∧ (tps68470_gpio_get hdr regmap offset).2.regs = regmap.regs
      ∧ ∀ other : Regmap,
          other.fault other.log (RegOp.read (if offset ≥ TPS68470_N_REGULAR_GPIO
            then hdr.TPS68470_REG_SGPO else hdr.TPS68470_REG_GPDO)) = 0 →
          (other.regs (if offset ≥ TPS68470_N_REGULAR_GPIO then hdr.TPS68470_REG_SGPO
              else hdr.TPS68470_REG_GPDO)).testBit
            (if offset ≥ TPS68470_N_REGULAR_GPIO then offset - TPS68470_N_REGULAR_GPIO
              else offset)
            = (regmap.regs (if offset ≥ TPS68470_N_REGULAR_GPIO then hdr.TPS68470_REG_SGPO
              else hdr.TPS68470_REG_GPDO)).testBit
            (if offset ≥ TPS68470_N_REGULAR_GPIO then offset - TPS68470_N_REGULAR_GPIO
              else offset) →
          (tps68470_gpio_get hdr other offset).1 = (tps68470_gpio_get hdr regmap offset).1 := by
  have hget := tps68470_gpio_get_ok hdr regmap offset ho hs
  refine ⟨?_, ?_, ?_, ?_, ?_⟩
  · intro hlt
    have hge : ¬ offset ≥ TPS68470_N_REGULAR_GPIO := Nat.not_le.mpr hlt
    rw [hget, if_neg hge, if_neg hge]
  · intro hge
    rw [hget, if_pos hge, if_pos hge]
  · rw [tps68470_gpio_get_snd]
  · rw [tps68470_gpio_get_snd]
  · intro other hso hbit
    rw [hget, tps68470_gpio_get_ok hdr other offset ho hso, hbit]

theorem tps68470_gpio_get_one_bit_witness :
    (tps68470_gpio_get tps68470_h
        (memRegmap fun r => if r = 0x27 then 0x05 else 0xff) 1).1 = 0
      ∧ (tps68470_gpio_get tps68470_h
        (memRegmap fun r => if r = 0x22 then 0x02 else 0) 8).1 = 1 :=
  ⟨((tps68470_gpio_get_one_bit tps68470_h
        (memRegmap fun r => if r = 0x27 then 0x05 else 0xff) 1 (by decide) rfl).1
      (by decide)).trans (by decide),
    ((tps68470_gpio_get_one_bit tps68470_h
        (memRegmap fun r => if r = 0x22 then 0x02 else 0) 8 (by decide) rfl).2.1
      (by decide)).trans (by decide)⟩

/-! ## What a level write changes -/

theorem testBit_level_update32 (old i j : Nat) (value : Int) (hi : i < 32) (hj : j < 32) :
    (update32 old (BIT i) (if value ≠ 0 then BIT i else 0)).testBit j
      = if j = i then decide (value ≠ 0) else old.testBit j := by
  rw [testBit_update32 _ _ _ _ hj, BIT_eq_two_pow (by omega : i < 64), Nat.testBit_two_pow]
  by_cases hji : j = i
  · subst hji
    by_cases hv : value = 0 <;> simp [hv, Nat.testBit_two_pow]
  · have hij : ¬ i = j := fun h => hji h.symm
    simp [hji, hij]

theorem tps68470_gpio_get_direction_ok (hdr : Tps68470Hdr) (map : Regmap) (offset : Nat)
    (ho : offset < TPS68470_N_REGULAR_GPIO)
    (hs : map.fault map.log (RegOp.read (hdr.TPS68470_GPIO_CTL_REG_A offset)) = 0) :
    (tps68470_gpio_get_direction hdr map offset).1
      = if int32 ((map.regs (hdr.TPS68470_GPIO_CTL_REG_A offset) % 2 ^ 32)
            &&& (hdr.TPS68470_GPIO_MODE_MASK % 2 ^ 32))
          ≥ (hdr.TPS68470_GPIO_MODE_OUT_CMOS : Int)
        then GPIO_LINE_DIRECTION_OUT else GPIO_LINE_DIRECTION_IN := by
  unfold tps68470_gpio_get_direction
  rw [if_neg (Nat.not_le.mpr ho)]
  dsimp only
  rw [regmap_read_ok _ _ hs]
  dsimp only
  rw [if_neg (not_not.mpr rfl)]

/-- The direction reported for a pin is the same on two fault-free register
maps that agree on the pin's mode-control register. -/
theorem tps68470_gpio_get_direction_congr (hdr : Tps68470Hdr) (map1 map2 : Regmap)
    (offset : Nat) (hf1 : map1.Faithful) (hf2 : map2.Faithful)
    (hregs : offset < TPS68470_N_REGULAR_GPIO →
      map1.regs (hdr.TPS68470_GPIO_CTL_REG_A offset)
        = map2.regs (hdr.TPS68470_GPIO_CTL_REG_A offset)) :
    (tps68470_gpio_get_direction hdr map1 offset).1
      = (tps68470_gpio_get_direction hdr map2 offset).1 := by
  by_cases ho : offset ≥ TPS68470_N_REGULAR_GPIO
  · unfold tps68470_gpio_get_direction
    rw [if_pos ho, if_pos ho]
  · have hlt : offset < TPS68470_N_REGULAR_GPIO := Nat.not_le.mp ho
    rw [tps68470_gpio_get_direction_ok hdr map1 offset hlt (hf1 _ _),
      tps68470_gpio_get_direction_ok hdr map2 offset hlt (hf2 _ _), hregs hlt]

/-- The level reported for a pin is the same on two fault-free register maps
that agree on the pin's bit of its output register. -/
theorem tps68470_gpio_get_congr (hdr : Tps68470Hdr) (map1 map2 : Regmap) (offset : Nat)
    (ho : offset < TPS68470_N_GPIO) (hf1 : map1.Faithful) (hf2 : map2.Faithful)
    (hbit : (map1.regs (if offset ≥ TPS68470_N_REGULAR_GPIO then hdr.TPS68470_REG_SGPO
          else hdr.TPS68470_REG_GPDO)).testBit
        (if offset ≥ TPS68470_N_REGULAR_GPIO then offset - TPS68470_N_REGULAR_GPIO
          else offset)
      = (map2.regs (if offset ≥ TPS68470_N_REGULAR_GPIO then hdr.TPS68470_REG_SGPO
          else hdr.TPS68470_REG_GPDO)).testBit
        (if offset ≥ TPS68470_N_REGULAR_GPIO then offset - TPS68470_N_REGULAR_GPIO
          else offset)) :
    (tps68470_gpio_get hdr map1 offset).1 = (tps68470_gpio_get hdr map2 offset).1 := by
  rw [tps68470_gpio_get_ok hdr map1 offset ho (hf1 _ _),
    tps68470_gpio_get_ok hdr map2 offset ho (hf2 _ _), hbit]

/-- C13: over a register map that never fails, for every pin offset below
10, every `int` value and every initial contents, `tps68470_gpio_set` leaves
every register other than the selected output register (A below 7, B from 7)
as it was, and in the selected register changes at most the pin's bit, which
becomes 1 exactly when the value is non-zero.  With the two output registers
and the mode-control registers at distinct addresses, `tps68470_gpio_get` of
every other pin and `tps68470_gpio_get_direction` of every pin return what
they returned before. -/
theorem tps68470_gpio_set_one_bit (hdr : Tps68470Hdr) (regmap : Regmap) (offset : Nat)
    (value : Int) (hf : regmap.Faithful) (ho : offset < TPS68470_N_GPIO)
    (hab : hdr.TPS68470_REG_GPDO ≠ hdr.TPS68470_REG_SGPO)
    (hctl : ∀ p, p < TPS68470_N_REGULAR_GPIO →
      hdr.TPS68470_GPIO_CTL_REG_A p ≠ hdr.TPS68470_REG_GPDO
        ∧ hdr.TPS68470_GPIO_CTL_REG_A p ≠ hdr.TPS68470_REG_SGPO) :
    (∀ r, r ≠ (if offset ≥ TPS68470_N_REGULAR_GPIO then hdr.TPS68470_REG_SGPO
          else hdr.TPS68470_REG_GPDO) →
        (tps68470_gpio_set hdr regmap offset value).regs r = regmap.regs r)
      ∧ (∀ j, j < 32 →
        ((tps68470_gpio_set hdr regmap offset value).regs
            (if offset ≥ TPS68470_N_REGULAR_GPIO then hdr.TPS68470_REG_SGPO
              else hdr.TPS68470_REG_GPDO)).testBit j
          = if j = (if offset ≥ TPS68470_N_REGULAR_GPIO then offset - TPS68470_N_REGULAR_GPIO
              else offset)
            then decide (value ≠ 0)
            else (regmap.regs (if offset ≥ TPS68470_N_REGULAR_GPIO then hdr.TPS68470_REG_SGPO
              else hdr.TPS68470_REG_GPDO)).testBit j)
      ∧ (∀ other, other < TPS68470_N_GPIO → other ≠ offset →
        (tps68470_gpio_get hdr (tps68470_gpio_set hdr regmap offset value) other).1
          = (tps68470_gpio_get hdr regmap other).1)
      ∧ (∀ p, (tps68470_gpio_get_direction hdr
            (tps68470_gpio_set hdr regmap offset value) p).1
          = (tps68470_gpio_get_direction hdr regmap p).1) := by
  have hf1 := tps68470_gpio_set_faithful hdr regmap offset value hf
  have hi := pin_bit_lt offset ho
  have hset : tps68470_gpio_set hdr regmap offset value
      = (regmap_update_bits regmap
          (if offset ≥ TPS68470_N_REGULAR_GPIO then hdr.TPS68470_REG_SGPO
            else hdr.TPS68470_REG_GPDO)
          (BIT (if offset ≥ TPS68470_N_REGULAR_GPIO then offset - TPS68470_N_REGULAR_GPIO
            else offset))
          (if value ≠ 0
            then BIT (if offset ≥ TPS68470_N_REGULAR_GPIO
              then offset - TPS68470_N_REGULAR_GPIO else offset)
            else 0)).2 := rfl
  have hother : ∀ r, r ≠ (if offset ≥ TPS68470_N_REGULAR_GPIO then hdr.TPS68470_REG_SGPO
        else hdr.TPS68470_REG_GPDO) →
      (tps68470_gpio_set hdr regmap offset value).regs r = regmap.regs r := by
    intro r hr
    rw [hset]
    exact regmap_update_bits_regs_of_ne _ _ _ _ _ hr
  have hbits : ∀ j, j < 32 →
      ((tps68470_gpio_set hdr regmap offset value).regs
          (if offset ≥ TPS68470_N_REGULAR_GPIO then hdr.TPS68470_REG_SGPO
            else hdr.TPS68470_REG_GPDO)).testBit j
        = if j = (if offset ≥ TPS68470_N_REGULAR_GPIO then offset - TPS68470_N_REGULAR_GPIO
            else offset)
          then decide (value ≠ 0)
          else (regmap.regs (if offset ≥ TPS68470_N_REGULAR_GPIO then hdr.TPS68470_REG_SGPO
            else hdr.TPS68470_REG_GPDO)).testBit j := by
    intro j hj
    rw [hset, regmap_update_bits_regs _ _ _ _ hf]
    dsimp only
    rw [if_pos rfl]
    exact testBit_level_update32 _ _ _ _ hi hj
  refine ⟨hother, hbits, ?_, ?_⟩
  · intro other hlt hne
    apply tps68470_gpio_get_congr hdr _ _ other hlt hf1 hf
    have hj := pin_bit_lt other hlt
    by_cases h1 : offset ≥ TPS68470_N_REGULAR_GPIO <;>
      by_cases h2 : other ≥ TPS68470_N_REGULAR_GPIO
    · simp only [if_pos h1, if_pos h2] at hbits hj ⊢
      rw [hbits _ hj, if_neg]
      unfold TPS68470_N_REGULAR_GPIO at h1 h2 ⊢
      omega
    · simp only [if_pos h1, if_neg h2] at hother ⊢
      exact congrArg (fun x => Nat.testBit x other) (hother _ hab)
    · simp only [if_neg h1, if_pos h2] at hother ⊢
      exact congrArg (fun x => Nat.testBit x (other - TPS68470_N_REGULAR_GPIO))
        (hother _ hab.symm)
    · simp only [if_neg h1, if_neg h2] at hbits hj ⊢
      rw [hbits _ hj, if_neg hne]
  · intro p
    apply tps68470_gpio_get_direction_congr hdr _ _ p hf1 hf
    intro hp
    apply hother
    by_cases h1 : offset ≥ TPS68470_N_REGULAR_GPIO
    · rw [if_pos h1]
      exact (hctl p hp).2
    · rw [if_neg h1]
      exact (hctl p hp).1

theorem tps68470_gpio_set_one_bit_witness :
    (tps68470_gpio_set tps68470_h (memRegmap fun _ => 0xaa) 3 0).regs 0x22 = 0xaa
      ∧ (tps68470_gpio_get tps68470_h
          (tps68470_gpio_set tps68470_h (memRegmap fun _ => 0xaa) 3 0) 5).1
        = (tps68470_gpio_get tps68470_h (memRegmap fun _ => 0xaa) 5).1
      ∧ (tps68470_gpio_get_direction tps68470_h
          (tps68470_gpio_set tps68470_h (memRegmap fun _ => 0xaa) 3 0) 3).1
        = (tps68470_gpio_get_direction tps68470_h (memRegmap fun _ => 0xaa) 3).1 :=
  have h := tps68470_gpio_set_one_bit tps68470_h (memRegmap fun _ => 0xaa) 3 0
    (fun _ _ => rfl) (by decide) (by decide) (by decide)
  ⟨h.1 0x22 (by decide), h.2.2.1 5 (by decide) (by decide), h.2.2.2 3⟩

/-! ## What configuring an input changes -/

/-- C14: over a register map that never fails, for every regular pin (offset
below 7) and every initial contents, `tps68470_gpio_input` returns 0; in the
pin's mode-control register every bit under the mode mask becomes 0 and every
other bit stays, and every other register stays.  With that register at an
address distinct from the two output registers and from the other pins'
mode-control registers, the level of every pin and the direction of every
other pin are what they were. -/
theorem tps68470_gpio_input_mode_field (hdr : Tps68470Hdr) (regmap : Regmap) (offset : Nat)
    (hf : regmap.Faithful) (ho : offset < TPS68470_N_REGULAR_GPIO)
    (hout : hdr.TPS68470_GPIO_CTL_REG_A offset ≠ hdr.TPS68470_REG_GPDO
      ∧ hdr.TPS68470_GPIO_CTL_REG_A offset ≠ hdr.TPS68470_REG_SGPO)
    (hinj : ∀ p, p < TPS68470_N_REGULAR_GPIO → p ≠ offset →
      hdr.TPS68470_GPIO_CTL_REG_A p ≠ hdr.TPS68470_GPIO_CTL_REG_A offset) :
    (tps68470_gpio_input hdr regmap offset).1 = 0
      ∧ (∀ j, hdr.TPS68470_GPIO_MODE_MASK.testBit j = true →
        ((tps68470_gpio_input hdr regmap offset).2.regs
          (hdr.TPS68470_GPIO_CTL_REG_A offset)).testBit j = false)
      ∧ (∀ j, j < 32 → hdr.TPS68470_GPIO_MODE_MASK.testBit j = false →
        ((tps68470_gpio_input hdr regmap offset).2.regs
            (hdr.TPS68470_GPIO_CTL_REG_A offset)).testBit j
          = (regmap.regs (hdr.TPS68470_GPIO_CTL_REG_A offset)).testBit j)
      ∧ (∀ r, r ≠ hdr.TPS68470_GPIO_CTL_REG_A offset →
        (tps68470_gpio_input hdr regmap offset).2.regs r = regmap.regs r)
      ∧ (∀ p, p < TPS68470_N_GPIO →
        (tps68470_gpio_get hdr (tps68470_gpio_input hdr regmap offset).2 p).1
          = (tps68470_gpio_get hdr regmap p).1)
      ∧ (∀ p, p ≠ offset →
        (tps68470_gpio_get_direction hdr (tps68470_gpio_input hdr regmap offset).2 p).1
          = (tps68470_gpio_get_direction hdr regmap p).1) := by
  have hinp : tps68470_gpio_input hdr regmap offset
      = regmap_update_bits regmap (hdr.TPS68470_GPIO_CTL_REG_A offset)
          hdr.TPS68470_GPIO_MODE_MASK 0x00 := by
    unfold tps68470_gpio_input
    rw [if_neg (Nat.not_le.mpr ho)]
  have hf1 : (tps68470_gpio_input hdr regmap offset).2.Faithful := by
    rw [hinp]
    exact regmap_update_bits_faithful _ _ _ _ hf
  have hother : ∀ r, r ≠ hdr.TPS68470_GPIO_CTL_REG_A offset →
      (tps68470_gpio_input hdr regmap offset).2.regs r = regmap.regs r := by
    intro r hr
    rw [hinp]
    exact regmap_update_bits_regs_of_ne _ _ _ _ _ hr
  have hctl : (tps68470_gpio_input hdr regmap offset).2.regs
        (hdr.TPS68470_GPIO_CTL_REG_A offset)
      = update32 (regmap.regs (hdr.TPS68470_GPIO_CTL_REG_A offset))
          hdr.TPS68470_GPIO_MODE_MASK 0x00 := by
    rw [hinp, regmap_update_bits_regs _ _ _ _ hf]
    exact if_pos rfl
  refine ⟨?_, ?_, ?_, hother, ?_, ?_⟩
  · rw [hinp, regmap_update_bits_ret]
    exact hf _ _
  · intro j hj
    rw [hctl, testBit_update32_all, if_pos hj]
    simp
  · intro j hj hm
    rw [hctl, testBit_update32 _ _ _ _ hj, if_neg (by simp [hm])]
  · intro p hp
    apply tps68470_gpio_get_congr hdr _ _ p hp hf1 hf
    by_cases h1 : p ≥ TPS68470_N_REGULAR_GPIO
    · simp only [if_pos h1]
      rw [hother _ hout.2.symm]
    · simp only [if_neg h1]
      rw [hother _ hout.1.symm]
  · intro p hp
    apply tps68470_gpio_get_direction_congr hdr _ _ p hf1 hf
    intro hlt
    exact hother _ (hinj p hlt hp)

theorem tps68470_gpio_input_mode_field_witness :
    (tps68470_gpio_input tps68470_h (memRegmap fun _ => 0xff) 2).1 = 0
      ∧ (tps68470_gpio_input tps68470_h (memRegmap fun _ => 0xff) 2).2.regs 0x27 = 0xff
      ∧ (tps68470_gpio_get tps68470_h
          (tps68470_gpio_input tps68470_h (memRegmap fun _ => 0xff) 2).2 2).1
        = (tps68470_gpio_get tps68470_h (memRegmap fun _ => 0xff) 2).1
      ∧ (tps68470_gpio_get_direction tps68470_h
          (tps68470_gpio_input tps68470_h (memRegmap fun _ => 0xff) 2).2 5).1
        = (tps68470_gpio_get_direction tps68470_h (memRegmap fun _ => 0xff) 5).1 :=
  have h := tps68470_gpio_input_mode_field tps68470_h (memRegmap fun _ => 0xff) 2
    (fun _ _ => rfl) (by decide) (by decide) (by decide)
  ⟨h.1, h.2.2.2.1 0x27 (by decide), h.2.2.2.2.1 2 (by decide), h.2.2.2.2.2 5 (by decide)⟩

/-! ## What enable and disable change -/

theorem update32_one_of_mask_le (r m : Nat) (hm : 1 &&& m = m) :
    update32 r m 1 = (r % 2 ^ 32) ||| m := by
  apply Nat.eq_of_testBit_eq
  intro j
  rw [testBit_update32_all]
  simp only [Nat.testBit_or, Nat.testBit_mod_two_pow]
  by_cases hmj : m.testBit j = true
  · have h1 : (1 : Nat).testBit j = true := by
      have h := congrArg (fun x => Nat.testBit x j) hm
      simp only [Nat.testBit_and, hmj, Bool.and_true] at h
      exact h
    have hj : j = 0 := Nat.testBit_one_eq_true_iff_self_eq_zero.mp h1
    subst hj
    simp [hmj]
  · simp [hmj]

theorem update32_zero (r m : Nat) :
    update32 r m 0 = (r % 2 ^ 32) &&& ((2 ^ 32 - 1) ^^^ m) := by
  apply Nat.eq_of_testBit_eq
  intro j
  rw [testBit_update32_all]
  simp only [Nat.testBit_and, Nat.testBit_xor, Nat.testBit_mod_two_pow,
    Nat.testBit_two_pow_sub_one, Nat.zero_testBit]
  by_cases hj : j < 32 <;> by_cases hmj : m.testBit j = true <;> simp [hj, hmj]

/-- C15: over a register map that never fails, for every initial value `r`
of the regulator control register and an enable mask `m` with no bit other
than bit 0 (the bit `tps68470_regulator_enable` writes): after enable the
register holds `r | m`, after disable it holds `r & ~m` (as 32-bit values);
in both cases every bit outside `m` and every other register is as it
was. -/
theorem tps68470_regulator_enable_disable_bits (hdr : Tps68470Hdr) (regmap : Regmap)
    (hf : regmap.Faithful)
    (hm : 1 &&& hdr.TPS68470_VAUX1CTL_EN_MASK = hdr.TPS68470_VAUX1CTL_EN_MASK) :
    (tps68470_regulator_enable hdr regmap).2.regs hdr.TPS68470_REG_VAUX1CTL
        = (regmap.regs hdr.TPS68470_REG_VAUX1CTL % 2 ^ 32) ||| hdr.TPS68470_VAUX1CTL_EN_MASK
      ∧ (tps68470_regulator_disable hdr regmap).2.regs hdr.TPS68470_REG_VAUX1CTL
        = (regmap.regs hdr.TPS68470_REG_VAUX1CTL % 2 ^ 32)
          &&& ((2 ^ 32 - 1) ^^^ hdr.TPS68470_VAUX1CTL_EN_MASK)
      ∧ (∀ j, j < 32 → hdr.TPS68470_VAUX1CTL_EN_MASK.testBit j = false →
        ((tps68470_regulator_enable hdr regmap).2.regs hdr.TPS68470_REG_VAUX1CTL).testBit j
            = (regmap.regs hdr.TPS68470_REG_VAUX1CTL).testBit j
          ∧ ((tps68470_regulator_disable hdr regmap).2.regs
              hdr.TPS68470_REG_VAUX1CTL).testBit j
            = (regmap.regs hdr.TPS68470_REG_VAUX1CTL).testBit j)
      ∧ (∀ r, r ≠ hdr.TPS68470_REG_VAUX1CTL →
        (tps68470_regulator_enable hdr regmap).2.regs r = regmap.regs r
          ∧ (tps68470_regulator_disable hdr regmap).2.regs r = regmap.regs r) := by
  have hen : (tps68470_regulator_enable hdr regmap).2.regs hdr.TPS68470_REG_VAUX1CTL
      = update32 (regmap.regs hdr.TPS68470_REG_VAUX1CTL) hdr.TPS68470_VAUX1CTL_EN_MASK 1 := by
    rw [tps68470_regulator_enable_snd, regmap_update_bits_regs _ _ _ _ hf]
    exact if_pos rfl
  have hdis : (tps68470_regulator_disable hdr regmap).2.regs hdr.TPS68470_REG_VAUX1CTL
      = update32 (regmap.regs hdr.TPS68470_REG_VAUX1CTL) hdr.TPS68470_VAUX1CTL_EN_MASK 0 := by
    rw [tps68470_regulator_disable_snd, regmap_update_bits_regs _ _ _ _ hf]
    exact if_pos rfl
  refine ⟨?_, ?_, ?_, ?_⟩
  · rw [hen]
    exact update32_one_of_mask_le _ _ hm
  · rw [hdis]
    exact update32_zero _ _
  · intro j hj hmj
    have hne : ¬ hdr.TPS68470_VAUX1CTL_EN_MASK.testBit j = true := by simp [hmj]
    rw [hen, hdis, testBit_update32 _ _ _ _ hj, testBit_update32 _ _ _ _ hj,
      if_neg hne, if_neg hne]
    exact ⟨rfl, rfl⟩
  · intro r hr
    rw [tps68470_regulator_enable_snd, tps68470_regulator_disable_snd]
    exact ⟨regmap_update_bits_regs_of_ne _ _ _ _ _ hr,
      regmap_update_bits_regs_of_ne _ _ _ _ _ hr⟩

theorem tps68470_regulator_enable_disable_bits_witness :
    (tps68470_regulator_enable tps68470_h (memRegmap fun _ => 0xa0)).2.regs 0x45 = 0xa1
      ∧ (tps68470_regulator_disable tps68470_h (memRegmap fun _ => 0xa1)).2.regs 0x45 = 0xa0
      ∧ (tps68470_regulator_enable tps68470_h (memRegmap fun _ => 0xa0)).2.regs 0x44 = 0xa0 :=
  ⟨(tps68470_regulator_enable_disable_bits tps68470_h (memRegmap fun _ => 0xa0)
      (fun _ _ => rfl) (by decide)).1.trans (by decide),
    (tps68470_regulator_enable_disable_bits tps68470_h (memRegmap fun _ => 0xa1)
      (fun _ _ => rfl) (by decide)).2.1.trans (by decide),
    ((tps68470_regulator_enable_disable_bits tps68470_h (memRegmap fun _ => 0xa0)
      (fun _ _ => rfl) (by decide)).2.2.2 0x44 (by decide)).1⟩

/-! ## How the direction is classified -/

theorem mode_field_int32 (c m : Nat) (hm : m < 2 ^ 31) :
    int32 ((c % 2 ^ 32) &&& (m % 2 ^ 32)) = ((c &&& m : Nat) : Int) := by
  have hm32 : m % 2 ^ 32 = m := Nat.mod_eq_of_lt (by omega)
  have hand : (c % 2 ^ 32) &&& m = c &&& m := by
    apply Nat.eq_of_testBit_eq
    intro j
    simp only [Nat.testBit_and, Nat.testBit_mod_two_pow]
    by_cases hj : j < 32
    · simp [hj]
    · have hmj : m.testBit j = false :=
        Nat.testBit_lt_two_pow (Nat.lt_of_lt_of_le hm
          (Nat.pow_le_pow_right (by decide) (by omega)))
      simp [hmj]
  rw [hm32, hand]
  exact int32_of_lt (Nat.lt_of_le_of_lt Nat.and_le_right hm)

theorem tps68470_gpio_get_direction_field (hdr : Tps68470Hdr) (map : Regmap) (offset : Nat)
    (ho : offset < TPS68470_N_REGULAR_GPIO)
    (hs : map.fault map.log (RegOp.read (hdr.TPS68470_GPIO_CTL_REG_A offset)) = 0)
    (hmask : hdr.TPS68470_GPIO_MODE_MASK < 2 ^ 31) :
    (tps68470_gpio_get_direction hdr map offset).1
      = if hdr.TPS68470_GPIO_MODE_OUT_CMOS
            ≤ map.regs (hdr.TPS68470_GPIO_CTL_REG_A offset) &&& hdr.TPS68470_GPIO_MODE_MASK
        then GPIO_LINE_DIRECTION_OUT else GPIO_LINE_DIRECTION_IN := by
  rw [tps68470_gpio_get_direction_ok hdr map offset ho hs, mode_field_int32 _ _ hmask]
  exact if_congr Int.ofNat_le rfl rfl

/-- C16: for every regular pin (offset below 7), every register map whose
read of the pin's mode-control register succeeds and every value `c` of that
register, with a mode mask that is a non-negative `int` constant:
`tps68470_gpio_get_direction` returns OUT exactly when `c & MASK` is at least
the output-CMOS mode value and IN exactly when it is below; any other
register map with the same masked mode field gives the same result. -/
theorem tps68470_gpio_get_direction_classifies (hdr : Tps68470Hdr) (regmap : Regmap)
    (offset : Nat) (ho : offset < TPS68470_N_REGULAR_GPIO)
    (hs : regmap.fault regmap.log (RegOp.read (hdr.TPS68470_GPIO_CTL_REG_A offset)) = 0)
    (hmask : hdr.TPS68470_GPIO_MODE_MASK < 2 ^ 31) :
    ((tps68470_gpio_get_direction hdr regmap offset).1 = GPIO_LINE_DIRECTION_OUT
        ↔ hdr.TPS68470_GPIO_MODE_OUT_CMOS
          ≤ regmap.regs (hdr.TPS68470_GPIO_CTL_REG_A offset) &&& hdr.TPS68470_GPIO_MODE_MASK)
      ∧ ((tps68470_gpio_get_direction hdr regmap offset).1 = GPIO_LINE_DIRECTION_IN
        ↔ regmap.regs (hdr.TPS68470_GPIO_CTL_REG_A offset) &&& hdr.TPS68470_GPIO_MODE_MASK
          < hdr.TPS68470_GPIO_MODE_OUT_CMOS)
      ∧ ∀ other : Regmap,
          other.fault other.log (RegOp.read (hdr.TPS68470_GPIO_CTL_REG_A offset)) = 0 →
          other.regs (hdr.TPS68470_GPIO_CTL_REG_A offset) &&& hdr.TPS68470_GPIO_MODE_MASK
            = regmap.regs (hdr.TPS68470_GPIO_CTL_REG_A offset)
              &&& hdr.TPS68470_GPIO_MODE_MASK →
          (tps68470_gpio_get_direction hdr other offset).1
            = (tps68470_gpio_get_direction hdr regmap offset).1 := by
  have hdir := tps68470_gpio_get_direction_field hdr regmap offset ho hs hmask
  have hne : GPIO_LINE_DIRECTION_IN ≠ GPIO_LINE_DIRECTION_OUT := by decide
  refine ⟨?_, ?_, ?_⟩
  · rw [hdir]
    constructor
    · intro h
      by_contra hc
      rw [if_neg hc] at h
      exact hne h
    · intro h
      rw [if_pos h]
  · rw [hdir]
    constructor
    · intro h
      by_contra hc
      rw [if_pos (Nat.not_lt.mp hc)] at h
      exact hne h.symm
    · intro h
      rw [if_neg (Nat.not_le.mpr h)]
  · intro other hso hfield
    rw [hdir, tps68470_gpio_get_direction_field hdr other offset ho hso hmask, hfield]

theorem tps68470_gpio_get_direction_classifies_witness :
    (tps68470_gpio_get_direction tps68470_h (memRegmap fun _ => 0xf3) 4).1
        = GPIO_LINE_DIRECTION_OUT
      ∧ (tps68470_gpio_get_direction tps68470_h (memRegmap fun _ => 0xf1) 4).1
        = GPIO_LINE_DIRECTION_IN :=
  ⟨(tps68470_gpio_get_direction_classifies tps68470_h (memRegmap fun _ => 0xf3) 4
      (by decide) rfl (by decide)).1.mpr (by decide),
    (tps68470_gpio_get_direction_classifies tps68470_h (memRegmap fun _ => 0xf1) 4
      (by decide) rfl (by decide)).2.1.mpr (by decide)⟩

/-! ## Queries leave the register map as it was -/

/-- The error code and the value of a read are the same on two register maps
that hold the same contents and whose transport answers the read alike. -/
theorem regmap_read_congr (map1 map2 : Regmap) (reg : Nat)
    (hregs : map1.regs = map2.regs)
    (hfault : map1.fault map1.log (RegOp.read reg) = map2.fault map2.log (RegOp.read reg)) :
    (regmap_read map1 reg).1 = (regmap_read map2 reg).1
      ∧ (regmap_read map1 reg).2.1 = (regmap_read map2 reg).2.1 := by
  unfold regmap_read
  dsimp only
  rw [hfault, hregs]
  by_cases h : map2.fault map2.log (RegOp.read reg) ≠ 0
  · rw [if_pos h, if_pos h]
    exact ⟨rfl, rfl⟩
  · rw [if_neg h, if_neg h]
    exact ⟨rfl, rfl⟩

theorem tps68470_gpio_get_congr_read (hdr : Tps68470Hdr) (map1 map2 : Regmap) (offset : Nat)
    (hregs : map1.regs = map2.regs)
    (hfault : map1.fault map1.log
        (RegOp.read (if offset ≥ TPS68470_N_REGULAR_GPIO then hdr.TPS68470_REG_SGPO
          else hdr.TPS68470_REG_GPDO))
      = map2.fault map2.log
        (RegOp.read (if offset ≥ TPS68470_N_REGULAR_GPIO then hdr.TPS68470_REG_SGPO
          else hdr.TPS68470_REG_GPDO))) :
    (tps68470_gpio_get hdr map1 offset).1 = (tps68470_gpio_get hdr map2 offset).1 := by
  obtain ⟨h1, h2⟩ := regmap_read_congr map1 map2 _ hregs hfault
  unfold tps68470_gpio_get
  dsimp only
  rw [h1, h2]
  by_cases h : (regmap_read map2 (if offset ≥ TPS68470_N_REGULAR_GPIO
      then hdr.TPS68470_REG_SGPO else hdr.TPS68470_REG_GPDO)).1 ≠ 0
  · rw [if_pos h, if_pos h]
  · rw [if_neg h, if_neg h]

theorem tps68470_gpio_get_direction_congr_read (hdr : Tps68470Hdr) (map1 map2 : Regmap)
    (offset : Nat) (hregs : map1.regs = map2.regs)
    (hfault : map1.fault map1.log (RegOp.read (hdr.TPS68470_GPIO_CTL_REG_A offset))
      = map2.fault map2.log (RegOp.read (hdr.TPS68470_GPIO_CTL_REG_A offset))) :
    (tps68470_gpio_get_direction hdr map1 offset).1
      = (tps68470_gpio_get_direction hdr map2 offset).1 := by
  obtain ⟨h1, h2⟩ := regmap_read_congr map1 map2 _ hregs hfault
  unfold tps68470_gpio_get_direction
  by_cases ho : offset ≥ TPS68470_N_REGULAR_GPIO
  · rw [if_pos ho, if_pos ho]
  · rw [if_neg ho, if_neg ho]
    dsimp only
    rw [h1, h2]
    by_cases h : (regmap_read map2 (hdr.TPS68470_GPIO_CTL_REG_A offset)).1 ≠ 0
    · rw [if_pos h, if_pos h]
    · rw [if_neg h, if_neg h]

theorem tps68470_regulator_is_enabled_congr_read (hdr : Tps68470Hdr) (map1 map2 : Regmap)
    (hregs : map1.regs = map2.regs)
    (hfault : map1.fault map1.log (RegOp.read hdr.TPS68470_REG_VAUX1CTL)
      = map2.fault map2.log (RegOp.read hdr.TPS68470_REG_VAUX1CTL)) :
    (tps68470_regulator_is_enabled hdr map1).1 = (tps68470_regulator_is_enabled hdr map2).1 := by
  obtain ⟨h1, h2⟩ := regmap_read_congr map1 map2 _ hregs hfault
  unfold tps68470_regulator_is_enabled
  dsimp only
  rw [h1, h2]
  by_cases h : (regmap_read map2 hdr.TPS68470_REG_VAUX1CTL).1 ≠ 0
  · rw [if_pos h, if_pos h]
  · rw [if_neg h, if_neg h]
    by_cases h3 : (regmap_read map2 hdr.TPS68470_REG_VAUX1CTL).2.1
        &&& (hdr.TPS68470_VAUX1CTL_EN_MASK % 2 ^ 32) ≠ 0
    · rw [if_pos h3, if_pos h3]
    · rw [if_neg h3, if_neg h3]

theorem tps68470_gpio_get_direction_snd (hdr : Tps68470Hdr) (map : Regmap) (offset : Nat) :
    (tps68470_gpio_get_direction hdr map offset).2
      = if offset ≥ TPS68470_N_REGULAR_GPIO then map
        else Regmap.mk map.regs map.fault
          (map.log ++ [RegOp.read (hdr.TPS68470_GPIO_CTL_REG_A offset)]) := by
  unfold tps68470_gpio_get_direction
  by_cases ho : offset ≥ TPS68470_N_REGULAR_GPIO
  · rw [if_pos ho, if_pos ho]
  · rw [if_neg ho, if_neg ho]
    dsimp only
    by_cases h : (regmap_read map (hdr.TPS68470_GPIO_CTL_REG_A offset)).1 ≠ 0
    · rw [if_pos h]
      exact regmap_read_snd _ _
    · rw [if_neg h]
      exact regmap_read_snd _ _

theorem tps68470_regulator_is_enabled_snd (hdr : Tps68470Hdr) (map : Regmap) :
    (tps68470_regulator_is_enabled hdr map).2
      = Regmap.mk map.regs map.fault
          (map.log ++ [RegOp.read hdr.TPS68470_REG_VAUX1CTL]) := by
  unfold tps68470_regulator_is_enabled
  dsimp only
  by_cases h : (regmap_read map hdr.TPS68470_REG_VAUX1CTL).1 ≠ 0
  · rw [if_pos h]
    exact regmap_read_snd _ _
  · rw [if_neg h]
    by_cases h3 : (regmap_read map hdr.TPS68470_REG_VAUX1CTL).2.1
        &&& (hdr.TPS68470_VAUX1CTL_EN_MASK % 2 ^ 32) ≠ 0
    · rw [if_pos h3]
      exact regmap_read_snd _ _
    · rw [if_neg h3]
      exact regmap_read_snd _ _

/-- C17: for every register map, failing or not, and every offset,
`tps68470_gpio_get`, `tps68470_gpio_get_direction`,
`tps68470_regulator_is_enabled` and `tps68470_regulator_get_voltage` leave the
register contents and the transport as they were and log at most one
operation, a read, so no `update_bits` (nothing at all for `get_voltage` and
for the direction of a pin from 7 up).  Hence on a register-map state whose
failure behaviour does not change with the operations issued, calling any of
them twice in a row returns the same result. -/
theorem tps68470_queries_read_only (hdr : Tps68470Hdr) (regmap : Regmap) (offset : Nat) :
    ((tps68470_gpio_get hdr regmap offset).2.regs = regmap.regs
        ∧ (tps68470_gpio_get hdr regmap offset).2.fault = regmap.fault
        ∧ (tps68470_gpio_get hdr regmap offset).2.log
          = regmap.log ++ [RegOp.read (if offset ≥ TPS68470_N_REGULAR_GPIO
              then hdr.TPS68470_REG_SGPO else hdr.TPS68470_REG_GPDO)])
      ∧ ((tps68470_gpio_get_direction hdr regmap offset).2.regs = regmap.regs
        ∧ (tps68470_gpio_get_direction hdr regmap offset).2.fault = regmap.fault
        ∧ (tps68470_gpio_get_direction hdr regmap offset).2.log
          = if offset ≥ TPS68470_N_REGULAR_GPIO then regmap.log
            else regmap.log ++ [RegOp.read (hdr.TPS68470_GPIO_CTL_REG_A offset)])
      ∧ ((tps68470_regulator_is_enabled hdr regmap).2.regs = regmap.regs
        ∧ (tps68470_regulator_is_enabled hdr regmap).2.fault = regmap.fault
        ∧ (tps68470_regulator_is_enabled hdr regmap).2.log
          = regmap.log ++ [RegOp.read hdr.TPS68470_REG_VAUX1CTL])
      ∧ (tps68470_regulator_get_voltage regmap).2 = regmap
      ∧ (regmap.HistoryIndependent →
        (tps68470_gpio_get hdr (tps68470_gpio_get hdr regmap offset).2 offset).1
            = (tps68470_gpio_get hdr regmap offset).1
          ∧ (tps68470_gpio_get_direction hdr
              (tps68470_gpio_get_direction hdr regmap offset).2 offset).1
            = (tps68470_gpio_get_direction hdr regmap offset).1
          ∧ (tps68470_regulator_is_enabled hdr
              (tps68470_regulator_is_enabled hdr regmap).2).1
            = (tps68470_regulator_is_enabled hdr regmap).1
          ∧ (tps68470_regulator_get_voltage (tps68470_regulator_get_voltage regmap).2).1
            = (tps68470_regulator_get_voltage regmap).1) := by
  refine ⟨?_, ?_, ?_, rfl, ?_⟩
  · rw [tps68470_gpio_get_snd]
    exact ⟨rfl, rfl, rfl⟩
  · rw [tps68470_gpio_get_direction_snd]
    by_cases ho : offset ≥ TPS68470_N_REGULAR_GPIO
    · rw [if_pos ho, if_pos ho]
      exact ⟨rfl, rfl, rfl⟩
    · rw [if_neg ho, if_neg ho]
      exact ⟨rfl, rfl, rfl⟩
  · rw [tps68470_regulator_is_enabled_snd]
    exact ⟨rfl, rfl, rfl⟩
  · intro hsame
    refine ⟨?_, ?_, ?_, rfl⟩
    · apply tps68470_gpio_get_congr_read
      · rw [tps68470_gpio_get_snd]
      · rw [tps68470_gpio_get_snd]
        exact hsame _ _ _
    · by_cases ho : offset ≥ TPS68470_N_REGULAR_GPIO
      · rw [tps68470_gpio_get_direction_snd, if_pos ho]
      · apply tps68470_gpio_get_direction_congr_read
        · rw [tps68470_gpio_get_direction_snd, if_neg ho]
        · rw [tps68470_gpio_get_direction_snd, if_neg ho]
          exact hsame _ _ _
    · apply tps68470_regulator_is_enabled_congr_read
      · rw [tps68470_regulator_is_enabled_snd]
      · rw [tps68470_regulator_is_enabled_snd]
        exact hsame _ _ _

theorem tps68470_queries_read_only_witness :
    ((tps68470_gpio_get tps68470_h
          (tps68470_gpio_get tps68470_h (memRegmap fun _ => 0xff) 8).2 8).1
        = (tps68470_gpio_get tps68470_h (memRegmap fun _ => 0xff) 8).1
      ∧ (tps68470_regulator_is_enabled tps68470_h
          (tps68470_regulator_is_enabled tps68470_h (memRegmap fun _ => 0xff)).2).1
        = (tps68470_regulator_is_enabled tps68470_h (memRegmap fun _ => 0xff)).1)
      ∧ (tps68470_gpio_get_direction tps68470_h
        (tps68470_gpio_get_direction tps68470_h
          (Regmap.mk (fun _ => 0xff) (fun _ _ => -5) []) 3).2 3).1
        = (tps68470_gpio_get_direction tps68470_h
          (Regmap.mk (fun _ => 0xff) (fun _ _ => -5) []) 3).1 :=
  have hmem := (tps68470_queries_read_only tps68470_h (memRegmap fun _ => 0xff) 8).2.2.2.2
    (fun _ _ _ => rfl)
  have hbad := (tps68470_queries_read_only tps68470_h
    (Regmap.mk (fun _ => 0xff) (fun _ _ => -5) []) 3).2.2.2.2 (fun _ _ _ => rfl)
  ⟨⟨hmem.1, hmem.2.2.1⟩, hbad.2.1⟩
